import Mathlib

/-!
# A verification development for the sports-oracle repository

This file gives a shallow embedding, in Lean 4, of the query-verification
pipeline of the repository: the question parsers, the safety governor
(circuit breaker, daily quota, inter-call pacing), the stats store, the
confidence policy of the two oracle entry points, and the payment-gated
HTTP handler of `server.mjs`.  JavaScript objects become Lean structures,
`null`/`undefined` string fields become `Option String`, JS numbers that
carry confidences become `ℚ`, and each external await (HTTP data provider,
payment facilitator) becomes an explicit input of the embedded function.
The regular expressions used by the parsers are compiled by hand to
executable matchers with the same leftmost-match and greedy/backtracking
behaviour on the character classes involved; each matcher notes the
corresponding pattern from the source.
-/

namespace SportsOracle

/-! ## JavaScript-style helpers -/

/-- Truthiness of a JS string value that may be `null`/`undefined`
(`none`) or a string: only a present, non-empty string is truthy. -/
def jsTruthyOpt : Option String → Bool
  | none => false
  | some s => s ≠ ""

/-- `a || b` on a possibly-null string with a string default. -/
def jsOrStr (a : Option String) (b : String) : String :=
  match a with
  | none => b
  | some s => if s = "" then b else s

/-- `s.toLowerCase()` restricted to its ASCII action (character-wise
lowering), kept in list form so that it reduces definitionally. -/
def jsToLower (s : String) : String := String.mk (s.toList.map Char.toLower)

/-- `s.trim()`: strip leading and trailing whitespace. -/
def jsTrim (s : String) : String :=
  String.mk (((s.toList.dropWhile Char.isWhitespace).reverse.dropWhile
    Char.isWhitespace).reverse)

/-- Does `hay` start with `needle` (exact characters)? -/
def charsStartWith : List Char → List Char → Bool
  | [], _ => true
  | _ :: _, [] => false
  | a :: as, b :: bs => a = b && charsStartWith as bs

/-- Does `hay` contain `needle` as a contiguous run?  Models JS
`String.prototype.includes`. -/
def charsContain (needle : List Char) : List Char → Bool
  | [] => needle.isEmpty
  | hay@(_ :: rest) => charsStartWith needle hay || charsContain needle rest

/-- `s.includes(sub)` of JavaScript. -/
def jsIncludes (s sub : String) : Bool :=
  charsContain sub.toList s.toList

/-! ## Character classes of the source's regular expressions -/

/-- JS `\w`: ASCII letters, digits and underscore. -/
def isWordChar (c : Char) : Bool := c.isAlphanum || c = '_'

/-- `[A-Z]`. -/
def isUpperAZ (c : Char) : Bool := 'A' ≤ c && c ≤ 'Z'

/-- `[a-z]`. -/
def isLowerAZ (c : Char) : Bool := 'a' ≤ c && c ≤ 'z'

/-! ## Generic matcher combinators -/

/-- Strip `lit` from the front of `cs` case-insensitively, returning the
original-case prefix that matched together with the rest.  Used for the
`/i` flag on literal alternatives. -/
def ciStrip : List Char → List Char → Option (List Char × List Char)
  | [], cs => some ([], cs)
  | _ :: _, [] => none
  | l :: ls, c :: cs =>
    if c.toLower = l.toLower then
      (ciStrip ls cs).map (fun p => (c :: p.1, p.2))
    else none

/-- Leftmost match: run the position matcher `m` at every suffix, left to
right, returning its first success (the behaviour of an unanchored JS
regex search). -/
def scanFirst (m : List Char → Option α) : List Char → Option α
  | [] => m []
  | cs@(_ :: rest) =>
    match m cs with
    | some r => some r
    | none => scanFirst m rest

/-- Backtracking for `\s+` followed by a continuation: try every
non-empty split of the leading whitespace run, longest first, exactly as
a greedy `\s+` with backtracking does. -/
def wsPlusThen (r : List Char) (k : List Char → Option α) : Option α :=
  let p := r.span (fun c => c.isWhitespace)
  go p.1 p.2 p.1.length
where
  go (ws rest : List Char) : Nat → Option α
    | 0 => none
    | j + 1 =>
      match k (ws.drop (j + 1) ++ rest) with
      | some v => some v
      | none => go ws rest j

/-- Is the position after a match a `\b` boundary (next character absent
or not a word character)? -/
def boundaryAfter : List Char → Bool
  | [] => true
  | c :: _ => !isWordChar c

/-! ## Dates

The sports parser turns date phrases into `YYYY-MM-DD` strings via the
JS `Date` object.  `new Date(s)` for a syntactically ISO `YYYY-MM-DD`
string is prescribed by ECMAScript: a calendar-valid string is parsed as
UTC midnight, so `toISOString().split('T')[0]` returns the same string;
a calendar-invalid one yields an invalid date (`isNaN`).  Parsing of any
other string (month-name forms, stray capitalized words) as well as the
values of "today"/"yesterday" are timezone- and implementation-dependent,
so they are supplied by a `DateEnv` environment. -/

/-- The pieces of the runtime clock that the parser's date handling
depends on. -/
structure DateEnv where
  /-- `new Date().toISOString().split('T')[0]`. -/
  todayISO : String
  /-- `d = new Date(); d.setDate(d.getDate() - 1)`, then ISO date part. -/
  yesterdayISO : String
  /-- `new Date(s)` + `toISOString().split('T')[0]` for strings that are
  not syntactically `YYYY-MM-DD` (`none` models an invalid date). -/
  parseOther : String → Option String

def digitVal (c : Char) : Nat := c.toNat - '0'.toNat

/-- Day count of a month under the Gregorian (ECMAScript `MakeDay`)
rule. -/
def daysInMonth (year month : Nat) : Nat :=
  if month = 2 then
    if year % 4 = 0 && (year % 100 ≠ 0 || year % 400 = 0) then 29 else 28
  else if month = 4 || month = 6 || month = 9 || month = 11 then 30
  else 31

/-- Is `s` exactly `YYYY-MM-DD` and calendar-valid? -/
def isValidISODateString (s : String) : Bool :=
  match s.toList with
  | [y1, y2, y3, y4, h1, m1, m2, h2, d1, d2] =>
    y1.isDigit && y2.isDigit && y3.isDigit && y4.isDigit && h1 = '-' &&
    m1.isDigit && m2.isDigit && h2 = '-' && d1.isDigit && d2.isDigit &&
    (let y := 1000 * digitVal y1 + 100 * digitVal y2 + 10 * digitVal y3 + digitVal y4
     let mo := 10 * digitVal m1 + digitVal m2
     let da := 10 * digitVal d1 + digitVal d2
     1 ≤ mo && mo ≤ 12 && 1 ≤ da && da ≤ daysInMonth y mo)
  | _ => false

/-- Is `s` syntactically of the `YYYY-MM-DD` shape (digits and dashes in
place), whether or not calendar-valid? -/
def isISOShaped (s : String) : Bool :=
  match s.toList with
  | [y1, y2, y3, y4, h1, m1, m2, h2, d1, d2] =>
    y1.isDigit && y2.isDigit && y3.isDigit && y4.isDigit && h1 = '-' &&
    m1.isDigit && m2.isDigit && h2 = '-' && d1.isDigit && d2.isDigit
  | _ => false

/-- `new Date(s)` followed by `toISOString().split('T')[0]`, as an
optional value (`none` = invalid date, i.e. `isNaN(parsed)`). -/
def jsDateToISO (env : DateEnv) (s : String) : Option String :=
  if isISOShaped s then
    if isValidISODateString s then some s else none
  else env.parseOther s

/-! ## Sports question parser (`parseQuestion` of the sports oracle)

Source: the sports oracle module, `parseQuestion`.  Patterns:
`/(\d{4}-\d{2}-\d{2})/`, `/on (\w+ \d+,? \d{4})/i`,
`/(yesterday|today|last night)/i`, then the entity pattern
`/\b([A-Z][a-z]+(?:\s+[A-Z][a-z]+)*)\b/g` with a stoplist. -/

namespace Sports

/-- Position matcher for `\d{4}-\d{2}-\d{2}` (fixed length, no
backtracking). -/
def matchISOAt : List Char → Option String
  | y1 :: y2 :: y3 :: y4 :: h1 :: m1 :: m2 :: h2 :: d1 :: d2 :: _ =>
    if y1.isDigit && y2.isDigit && y3.isDigit && y4.isDigit && h1 = '-' &&
       m1.isDigit && m2.isDigit && h2 = '-' && d1.isDigit && d2.isDigit then
      some (String.mk [y1, y2, y3, y4, h1, m1, m2, h2, d1, d2])
    else none
  | _ => none

/-- Exactly four digits at the head; returns them (more digits may
follow, as in the regex `\d{4}` with no boundary). -/
def takeFourDigits : List Char → Option (List Char)
  | a :: b :: c :: d :: _ =>
    if a.isDigit && b.isDigit && c.isDigit && d.isDigit then some [a, b, c, d] else none
  | _ => none

/-- Position matcher for `/on (\w+ \d+,? \d{4})/i`, returning the capture
group.  The greedy `\w+` and `\d+` need no backtracking here: the
character required immediately after each (a literal space or `,`) is
outside the repeated class, so only the maximal run can succeed. -/
def matchOnDateAt (cs : List Char) : Option String :=
  match cs with
  | c0 :: c1 :: c2 :: r =>
    if c0.toLower = 'o' && c1.toLower = 'n' && c2 = ' ' then
      let pw := r.span isWordChar
      if pw.1.isEmpty then none else
      match pw.2 with
      | ' ' :: r2 =>
        let pd := r2.span Char.isDigit
        if pd.1.isEmpty then none else
        match pd.2 with
        | ',' :: ' ' :: r4 =>
          (takeFourDigits r4).map fun y =>
            String.mk (pw.1 ++ ' ' :: pd.1 ++ ',' :: ' ' :: y)
        | ' ' :: r4 =>
          (takeFourDigits r4).map fun y =>
            String.mk (pw.1 ++ ' ' :: pd.1 ++ ' ' :: y)
        | _ => none
      | _ => none
    else none
  | _ => none

/-- Position matcher for `/(yesterday|today|last night)/i`; alternatives
in source order, returning the original-case matched text (the code then
compares that text case-sensitively against `'yesterday'` etc.). -/
def matchRelDateAt (cs : List Char) : Option String :=
  match ciStrip "yesterday".toList cs with
  | some p => some (String.mk p.1)
  | none =>
    match ciStrip "today".toList cs with
    | some p => some (String.mk p.1)
    | none => (ciStrip "last night".toList cs).map fun p => String.mk p.1

/-- The date branch of `parseQuestion`: find the first pattern (in the
order of the `datePatterns` array) that matches anywhere and process its
`match[1]` as the code does. -/
def dateFromMatch (env : DateEnv) (m : String) : String :=
  if m = "yesterday" || m = "last night" then env.yesterdayISO
  else if m = "today" then env.todayISO
  else
    match jsDateToISO env m with
    | some iso => iso
    | none => m

/-- The raw date extraction: the first of the three patterns that matches
the question, processed; `none` when no pattern matches. -/
def extractDate (env : DateEnv) (question : String) : Option String :=
  match scanFirst matchISOAt question.toList with
  | some m => some (dateFromMatch env m)
  | none =>
    match scanFirst matchOnDateAt question.toList with
    | some m => some (dateFromMatch env m)
    | none =>
      match scanFirst matchRelDateAt question.toList with
      | some m => some (dateFromMatch env m)
      | none => none

/-- `[A-Z][a-z]+` with the `[a-z]+` run maximal; returns the word and the
rest. -/
def matchWordUC : List Char → Option (List Char × List Char)
  | c :: rest =>
    if isUpperAZ c then
      let pl := rest.span isLowerAZ
      if pl.1.isEmpty then none else some (c :: pl.1, pl.2)
    else none
  | [] => none

/-- Greedily collect `(?:\s+[A-Z][a-z]+)*` segments (whitespace run plus
capitalized word), returning the segments and the rest.  Fuel-indexed;
the fuel `cs.length` always suffices since every segment consumes at
least two characters. -/
def teamSegs : Nat → List Char → List (List Char × List Char) × List Char
  | 0, cs => ([], cs)
  | fuel + 1, cs =>
    let pws := cs.span (fun c => c.isWhitespace)
    if pws.1.isEmpty then ([], cs) else
    match matchWordUC pws.2 with
    | none => ([], cs)
    | some (w, r2) =>
      let rec2 := teamSegs fuel r2
      ((pws.1, w) :: rec2.1, rec2.2)

/-- Match `[A-Z][a-z]+(?:\s+[A-Z][a-z]+)*\b` at a position already known
to be at a `\b` boundary.  On a trailing-boundary failure the only
fruitful backtrack is dropping the final `(?:\s+[A-Z][a-z]+)` iteration
(shrinking a `[a-z]+` run leaves a letter-letter boundary, which can
never satisfy `\b`); after one drop the next character is whitespace, so
the boundary holds.  Returns the matched text and the rest. -/
def matchTeamAt (cs : List Char) : Option (List Char × List Char) :=
  match matchWordUC cs with
  | none => none
  | some (w1, r1) =>
    let segs := teamSegs r1.length r1
    if boundaryAfter segs.2 then
      some (w1 ++ (segs.1.map fun sg => sg.1 ++ sg.2).flatten, segs.2)
    else
      match segs.1.getLast? with
      | none => none
      | some lastSeg =>
        some (w1 ++ (segs.1.dropLast.map fun sg => sg.1 ++ sg.2).flatten,
              lastSeg.1 ++ lastSeg.2 ++ segs.2)

/-- Global scan for the entity pattern, tracking whether the previous
character is a word character (for the leading `\b`).  After a match the
scan resumes at the match end (`lastIndex` semantics); a match always
ends in a lowercase letter, so the tracked flag becomes `true`. -/
def scanTeams : Nat → Bool → List Char → List String
  | 0, _, _ => []
  | _ + 1, _, [] => []
  | fuel + 1, prevWord, cs@(c :: rest) =>
    if !prevWord then
      match matchTeamAt cs with
      | some (m, after) => String.mk m :: scanTeams fuel true after
      | none => scanTeams fuel (isWordChar c) rest
    else scanTeams fuel (isWordChar c) rest

/-- The capitalized-span extraction with the stoplist filter applied in
encounter order. -/
def extractTeams (question : String) : List String :=
  (scanTeams question.toList.length false question.toList).filter fun t =>
    !(["Who", "What", "Did", "The", "How", "When"].contains t)

/-- `StructuredQuery` of the sports domain, exactly the object literal
returned by `parseQuestion`. -/
structure SportsQuery where
  team : Option String
  opponent : Option String
  date : String
  originalQuestion : String
deriving Repr, DecidableEq

/-- The sports `parseQuestion`.  Note that the `date` field is
`date || new Date().toISOString().split('T')[0]`: it is *defaulted to the
current date*, never left null. -/
def parseQuestion (env : DateEnv) (question : String) : SportsQuery :=
  let teams := extractTeams question
  { team := teams.head?
    opponent := teams[1]?
    date := jsOrStr (extractDate env question) env.todayISO
    originalQuestion := question }

/-! ## Sports oracle: aliases, safety rails, stats, verification -/

/-- The `TEAM_ALIASES` table: lowercase short name → canonical franchise
name. -/
def TEAM_ALIASES : List (String × String) :=
  [("celtics", "Boston Celtics"), ("lakers", "Los Angeles Lakers"),
   ("warriors", "Golden State Warriors"), ("bulls", "Chicago Bulls"),
   ("heat", "Miami Heat"), ("nets", "Brooklyn Nets"),
   ("knicks", "New York Knicks"), ("sixers", "Philadelphia 76ers"),
   ("76ers", "Philadelphia 76ers"), ("bucks", "Milwaukee Bucks"),
   ("suns", "Phoenix Suns"), ("mavs", "Dallas Mavericks"),
   ("mavericks", "Dallas Mavericks"), ("nuggets", "Denver Nuggets"),
   ("clippers", "Los Angeles Clippers"), ("rockets", "Houston Rockets"),
   ("spurs", "San Antonio Spurs"), ("chiefs", "Kansas City Chiefs"),
   ("eagles", "Philadelphia Eagles"), ("cowboys", "Dallas Cowboys"),
   ("packers", "Green Bay Packers"), ("niners", "San Francisco 49ers"),
   ("49ers", "San Francisco 49ers"), ("bills", "Buffalo Bills"),
   ("ravens", "Baltimore Ravens"), ("bengals", "Cincinnati Bengals"),
   ("yankees", "New York Yankees"), ("dodgers", "Los Angeles Dodgers"),
   ("red sox", "Boston Red Sox"), ("cubs", "Chicago Cubs"),
   ("bruins", "Boston Bruins"), ("rangers", "New York Rangers"),
   ("maple leafs", "Toronto Maple Leafs"), ("canadiens", "Montreal Canadiens")]

/-- `normalizeTeamName` on a present, truthy team name:
`TEAM_ALIASES[lower] || teamName`. -/
def normalizeTeamName (teamName : String) : String :=
  match TEAM_ALIASES.lookup (jsTrim (jsToLower teamName)) with
  | some canonical => canonical
  | none => teamName

/-- The `SAFETY_LIMITS` constants of the sports oracle. -/
def maxDailyLoss : Nat := 100
def maxConsecutiveErrors : Nat := 5
def minConfidenceFloor : ℚ := 0.5
def maxQueriesPerMinute : Nat := 60
def maxQueriesPerDay : Nat := 1000

/-- `applyConfidenceFloor`: raise a positive confidence below the floor
up to the floor; other values pass through. -/
def applyConfidenceFloor (confidence : ℚ) : ℚ :=
  if 0 < confidence ∧ confidence < minConfidenceFloor then minConfidenceFloor
  else confidence

/-- One entry of `stats.recentQueries` (the fields `logQuery` stores:
timestamp, query, verified, confidence, winner, error). -/
structure LogEntry where
  timestamp : String
  query : Option SportsQuery
  verified : Bool
  confidence : ℚ
  winner : Option String
  error : Option String
deriving Repr, DecidableEq

/-- The persisted sports stats document. -/
structure Stats where
  totalQueries : Nat
  todayQueries : Nat
  successCount : Nat
  errorCount : Nat
  confidenceSum : ℚ
  hourlyData : List Nat
  recentQueries : List LogEntry
  lastReset : String
deriving Repr, DecidableEq

/-- The zero state `loadStats` falls back to for a missing or corrupt
file (with `lastReset` the current date string). -/
def initStats (dateString : String) : Stats :=
  { totalQueries := 0, todayQueries := 0, successCount := 0, errorCount := 0,
    confidenceSum := 0, hourlyData := List.replicate 24 0,
    recentQueries := [], lastReset := dateString }

end Sports

/-- Outcome of the safety pre-check: `{ safe: true }` or
`{ safe: false, reason, message }`. -/
inductive SafetyCheck where
  | safe : SafetyCheck
  | stopped (reason : String) (message : String) : SafetyCheck
deriving Repr, DecidableEq

/-- The pieces of `new Date()` that the stats store reads. -/
structure Clock where
  /-- `toDateString()`. -/
  dateString : String
  /-- `getHours()`; always in `[0, 23]` in JS. -/
  hour : Nat
  /-- `toISOString()`. -/
  iso : String
deriving Repr, DecidableEq

/-- `stats.hourlyData[h]++` for an index inside the array. -/
def bumpAt (l : List Nat) (i : Nat) : List Nat :=
  l.set i (l.getD i 0 + 1)

namespace Sports

/-- The sports `checkSafetyLimits`: circuit breaker over the five most
recent outcomes, then the daily quota. -/
def checkSafetyLimits (stats : Stats) : SafetyCheck :=
  let recentQueries := stats.recentQueries.take maxConsecutiveErrors
  let consecutiveErrors := (recentQueries.filter fun q => !q.verified).length
  if maxConsecutiveErrors ≤ recentQueries.length ∧
      consecutiveErrors = maxConsecutiveErrors then
    .stopped "circuit_breaker_tripped"
      "5 consecutive errors detected. Operations paused."
  else if maxQueriesPerDay ≤ stats.todayQueries then
    .stopped "daily_limit_reached" "Daily query limit (1000) reached."
  else .safe

/-- The `result` sub-object of a verified sports answer. -/
structure SportsGame where
  homeTeam : String
  awayTeam : String
  homeScore : Int
  awayScore : Int
  winner : String
  finalScore : String
deriving Repr, DecidableEq

/-- `VerificationResult` of the sports oracle: every field any of the
return-object literals of `verifyResult` / `askOracle` can carry. -/
structure SportsResult where
  verified : Bool
  confidence : ℚ
  error : Option String := none
  result : Option SportsGame := none
  league : Option String := none
  date : Option String := none
  query : Option SportsQuery := none
  sources : List String := []
  sourcesAgreed : Option Nat := none
  sourcesQueried : Option Nat := none
  suggestion : Option String := none
  message : Option String := none
  safetyTriggered : Bool := false
  parsed : Option SportsQuery := none
  timestamp : String
deriving Repr, DecidableEq

/-- `logQuery` of the sports oracle: day rollover reset, counters,
hourly histogram, rolling 50-entry window.  (`result.confidence || 0`
coincides with `result.confidence` for the rational model since falsy
numeric values are exactly `0`.) -/
def logQuery (clock : Clock) (result : SportsResult) (stats : Stats) : Stats :=
  let s :=
    if stats.lastReset ≠ clock.dateString then
      { stats with todayQueries := 0, hourlyData := List.replicate 24 0,
                   lastReset := clock.dateString }
    else stats
  let s :=
    { s with totalQueries := s.totalQueries + 1,
             todayQueries := s.todayQueries + 1,
             hourlyData := bumpAt s.hourlyData clock.hour }
  let s :=
    if result.verified then
      { s with successCount := s.successCount + 1,
               confidenceSum := s.confidenceSum + result.confidence }
    else { s with errorCount := s.errorCount + 1 }
  { s with recentQueries :=
      ({ timestamp := clock.iso, query := result.query,
         verified := result.verified, confidence := result.confidence,
         winner := (result.result.map fun g => g.winner),
         error := result.error } :: s.recentQueries).take 50 }

/-- The normalized payload `querySportsDB` returns on success (the event
found for the requested date, with the winner already computed). -/
structure SportsDBPayload where
  homeTeam : String
  awayTeam : String
  homeScore : Int
  awayScore : Int
  winner : String
  date : String
  league : String
  eventId : String
deriving Repr, DecidableEq

/-- Outcome of the awaited `querySportsDB(team, date)` call: a
`{ error, source }` object (`team_not_found`, `no_events`,
`event_not_found_on_date`, or a transport exception message) or the
event payload.  The degenerate case of an exception whose message is the
empty string — which the truthiness test `if (sportsDbResult.error)`
would let fall through onto an undefined payload — is not modelled; the
adapter's own classified error strings are all non-empty. -/
inductive SportsDBOut where
  | fail (error : String) : SportsDBOut
  | ok (payload : SportsDBPayload) : SportsDBOut
deriving Repr, DecidableEq

/-- `verifyResult(query)`, with the awaited `querySportsDB` result passed
explicitly.  Single source: base confidence 0.75, raised to 0.85 when a
provided opponent matches (case-insensitive substring test against the
home or away team). -/
def verifyResult (clock : Clock) (query : SportsQuery) (db : SportsDBOut) :
    SportsResult :=
  match db with
  | .fail e =>
    { verified := false, confidence := 0, error := some e,
      query := some query, sources := ["thesportsdb"], timestamp := clock.iso }
  | .ok p =>
    let oppTruthy := jsTruthyOpt query.opponent
    let opponentMatch :=
      if oppTruthy then
        let oppLower := jsToLower (query.opponent.getD "")
        jsIncludes (jsToLower p.homeTeam) oppLower ||
          jsIncludes (jsToLower p.awayTeam) oppLower
      else true
    let confidence : ℚ := if opponentMatch && oppTruthy then 0.85 else 0.75
    { verified := true, confidence := confidence,
      result := some
        { homeTeam := p.homeTeam, awayTeam := p.awayTeam,
          homeScore := p.homeScore, awayScore := p.awayScore,
          winner := p.winner,
          finalScore := toString p.homeScore ++ "-" ++ toString p.awayScore },
      league := some p.league, date := some p.date, query := some query,
      sources := ["thesportsdb"], sourcesAgreed := some 1,
      sourcesQueried := some 1, timestamp := clock.iso }

/-- The external world of the sports oracle: what the awaited
`querySportsDB(team, date)` call would return. -/
structure SportsEnv where
  querySportsDB : String → String → SportsDBOut

/-- `if (parsed.team) parsed.team = normalizeTeamName(parsed.team)`. -/
def normalizeOptTeam (t : Option String) : Option String :=
  if jsTruthyOpt t then t.map normalizeTeamName else t

/-- The sports `askOracle` with its effects made explicit: returns the
result, the stats state after the call (`logQuery` happens on every path
except a safety stop), and the number of source-adapter invocations. -/
def askOracle (env : SportsEnv) (dateEnv : DateEnv) (clock : Clock)
    (question : String) (stats : Stats) : SportsResult × Stats × Nat :=
  match checkSafetyLimits stats with
  | .stopped reason msg =>
    ({ verified := false, confidence := 0, error := some reason,
       message := some msg, safetyTriggered := true, timestamp := clock.iso },
     stats, 0)
  | .safe =>
    let parsed0 := parseQuestion dateEnv question
    let parsed := { parsed0 with team := normalizeOptTeam parsed0.team,
                                 opponent := normalizeOptTeam parsed0.opponent }
    if !jsTruthyOpt parsed.team then
      let result : SportsResult :=
        { verified := false, confidence := 0,
          error := some "could_not_parse_team_name",
          suggestion := some "Please include a team name in your question",
          parsed := some parsed, timestamp := clock.iso }
      (result, logQuery clock result stats, 0)
    else
      let db := env.querySportsDB (parsed.team.getD "") parsed.date
      let r0 := verifyResult clock parsed db
      let r1 :=
        if r0.verified ∧ 0 < r0.confidence then
          { r0 with confidence := applyConfidenceFloor r0.confidence }
        else r0
      (r1, logQuery clock r1 stats, 1)

end Sports

/-! ## Outbound request discipline of the adapters

Each adapter's outbound `axios.get` is characterized by the options it
passes (request timeout, user agent) and by whether the call is preceded
by an `await enforceRateLimit()`.  These records transcribe the calls as
written in the source. -/

/-- Shape of one outbound provider call. -/
structure OutboundCall where
  /-- The `timeout` entry of the axios config, if the call passes one. -/
  timeoutMs : Option Nat
  /-- The `User-Agent` header, if the call sets one. -/
  userAgent : Option String
  /-- Is the call preceded by `await enforceRateLimit()`? -/
  pacedByRateLimit : Bool
deriving Repr, DecidableEq

/-- `axios.get(SPORTSDB_BASE + '/searchteams.php?t=...')` in
`querySportsDB`: no config object at all. -/
def sportsTeamSearchCall : OutboundCall :=
  { timeoutMs := none, userAgent := none, pacedByRateLimit := false }

/-- `axios.get(SPORTSDB_BASE + '/eventslast.php?id=...')` in
`querySportsDB`: no config object at all. -/
def sportsEventsLastCall : OutboundCall :=
  { timeoutMs := none, userAgent := none, pacedByRateLimit := false }

/-! ## Reddit oracle (`reddit-oracle.js`) -/

namespace Reddit

/-- The `SAFETY_LIMITS` constants of the reddit oracle. -/
def maxQueriesPerMinute : Nat := 30
def maxQueriesPerDay : Nat := 500
def maxConsecutiveErrors : Nat := 5
def minConfidenceFloor : ℚ := 0.5
def requestDelayMs : Nat := 2000

/-- The mandatory reddit `User-Agent`. -/
def USER_AGENT : String := "RedditOracle/1.0 (OpenClaw Agent; +https://openclaw.ai)"

/-- `QUERY_TYPES`. -/
def QT_HOT : String := "hot"
def QT_NEW : String := "new"
def QT_TOP : String := "top"
def QT_POST : String := "post"
def QT_SEARCH : String := "search"

/-- One entry of the reddit `stats.recentQueries` (timestamp, query,
success, subreddit, error). -/
structure LogEntry where
  timestamp : String
  success : Bool
  subreddit : Option String
  error : Option String
deriving Repr, DecidableEq

/-- The persisted reddit stats document. -/
structure Stats where
  totalQueries : Nat
  todayQueries : Nat
  successCount : Nat
  errorCount : Nat
  hourlyData : List Nat
  recentQueries : List LogEntry
  lastReset : String
deriving Repr, DecidableEq

/-- The zero state of `loadStats` for a missing or corrupt file. -/
def initStats (dateString : String) : Stats :=
  { totalQueries := 0, todayQueries := 0, successCount := 0, errorCount := 0,
    hourlyData := List.replicate 24 0, recentQueries := [],
    lastReset := dateString }

/-- The reddit `checkSafetyLimits`: identical breaker logic to the
sports oracle (over `q.success` instead of `q.verified`), then the
500-query daily quota. -/
def checkSafetyLimits (stats : Stats) : SafetyCheck :=
  let recentQueries := stats.recentQueries.take maxConsecutiveErrors
  let consecutiveErrors := (recentQueries.filter fun q => !q.success).length
  if maxConsecutiveErrors ≤ recentQueries.length ∧
      consecutiveErrors = maxConsecutiveErrors then
    .stopped "circuit_breaker_tripped"
      "5 consecutive errors detected. Operations paused."
  else if maxQueriesPerDay ≤ stats.todayQueries then
    .stopped "daily_limit_reached" "Daily query limit (500) reached."
  else .safe

/-- `enforceRateLimit`, reduced to its arithmetic: given the current
`Date.now()` and the stored `lastRequestTime`, the wait (in ms) the
function sleeps before letting the call proceed.  The function has no
rejecting branch: it always proceeds after the wait. -/
def enforceRateLimitWait (now lastRequestTime : Nat) : Nat :=
  let elapsed := now - lastRequestTime
  if elapsed < requestDelayMs then requestDelayMs - elapsed else 0

/-! ### Reddit question parsing -/

/-- Position matcher for `/r\/([a-zA-Z0-9_]+)/i`: `r` (either case),
`/`, then a maximal non-empty word-character run as the capture. -/
def matchRSlashAt : List Char → Option String
  | c0 :: c1 :: r =>
    if c0.toLower = 'r' && c1 = '/' then
      let pw := r.span isWordChar
      if pw.1.isEmpty then none else some (String.mk pw.1)
    else none
  | _ => none

/-- Position matcher for
`/(?:on|from|in)\s+([a-zA-Z0-9_]+)\s+(?:subreddit)?/i`.  The trailing
optional group never fails, so it does not constrain the match; the
capture must be followed by at least one whitespace character.  The
greedy `\s+` and the capture run need no backtracking here: shrinking
either leaves a character of the same class where the opposite class is
required. -/
def matchOnFromInAt (cs : List Char) : Option String :=
  let tryAlt (lit : String) : Option String :=
    match ciStrip lit.toList cs with
    | none => none
    | some p =>
      let pws := p.2.span (fun c => c.isWhitespace)
      if pws.1.isEmpty then none else
      let pw := pws.2.span isWordChar
      if pw.1.isEmpty then none else
      match pw.2 with
      | c :: _ => if c.isWhitespace then some (String.mk pw.1) else none
      | [] => none
  match tryAlt "on" with
  | some w => some w
  | none =>
    match tryAlt "from" with
    | some w => some w
    | none => tryAlt "in"

/-- Position matcher for `/subreddit\s+([a-zA-Z0-9_]+)/i`. -/
def matchSubredditKwAt (cs : List Char) : Option String :=
  match ciStrip "subreddit".toList cs with
  | none => none
  | some p =>
    let pws := p.2.span (fun c => c.isWhitespace)
    if pws.1.isEmpty then none else
    let pw := pws.2.span isWordChar
    if pw.1.isEmpty then none else some (String.mk pw.1)

/-- The `subredditPatterns` loop: first pattern that matches anywhere
wins. -/
def extractSubreddit (question : String) : Option String :=
  match scanFirst matchRSlashAt question.toList with
  | some w => some w
  | none =>
    match scanFirst matchOnFromInAt question.toList with
    | some w => some w
    | none => scanFirst matchSubredditKwAt question.toList

/-- The single-quote character, written by code point to keep the
matcher readable. -/
def quoteChar : Char := Char.ofNat 39

/-- `["']?([^"'?]+)` at a position: an optional opening quote, then a
maximal non-empty run of characters outside `"` `'` `?` as the capture.
If the run after the quote is empty the quote-less reading starts *at*
the quote, which is also excluded, so no backtracking helps. -/
def kwTail (r : List Char) : Option String :=
  let r2 := match r with
    | '"' :: t => t
    | c :: t => if c = quoteChar then t else r
    | [] => r
  let pc := r2.span (fun c => c ≠ '"' && c ≠ quoteChar && c ≠ '?')
  if pc.1.isEmpty then none else some (String.mk pc.1)

/-- Position matcher for
`/(?:search|find|looking for)\s+(?:for\s+)?["']?([^"'?]+)["']?/i`,
returning the capture.  Both `\s+` runs backtrack (shorter whitespace
takes let the capture begin with whitespace), and the optional
`(?:for\s+)?` is tried greedily before being dropped. -/
def matchSearchKwAt (cs : List Char) : Option String :=
  let alt (lit : String) : Option String :=
    match ciStrip lit.toList cs with
    | none => none
    | some p =>
      wsPlusThen p.2 fun r1 =>
        let withFor : Option String :=
          match ciStrip "for".toList r1 with
          | none => none
          | some pf => wsPlusThen pf.2 kwTail
        match withFor with
        | some w => some w
        | none => kwTail r1
  match alt "search" with
  | some w => some w
  | none =>
    match alt "find" with
    | some w => some w
    | none => alt "looking for"

/-- Test for `/[a-z0-9]{6,}/i`: some position starts a run of at least
six ASCII alphanumeric characters. -/
def hasAlnumRun6 (question : String) : Bool :=
  (scanFirst
    (fun cs =>
      if (cs.take 6).length = 6 && (cs.take 6).all Char.isAlphanum then
        some ()
      else none)
    question.toList).isSome

/-- Position matcher for `/comments\/([a-z0-9]+)/i`. -/
def matchCommentsIdAt (cs : List Char) : Option String :=
  match ciStrip "comments/".toList cs with
  | none => none
  | some p =>
    let pa := p.2.span Char.isAlphanum
    if pa.1.isEmpty then none else some (String.mk pa.1)

/-- `\b([a-z0-9]{6,8})\b` at a position already at a `\b` boundary:
greedy repetition tries lengths 8, 7, 6; the trailing `\b` demands that
the character after the taken run not be a word character (note `_` is a
word character but not in the class, so a run abutting `_` never
matches, exactly as in the regex). -/
def matchPostIdAt (cs : List Char) : Option String :=
  let tryLen (n : Nat) : Option String :=
    let run := cs.take n
    if run.length = n && run.all Char.isAlphanum && boundaryAfter (cs.drop n) then
      some (String.mk run)
    else none
  match tryLen 8 with
  | some w => some w
  | none =>
    match tryLen 7 with
    | some w => some w
    | none => tryLen 6

/-- Scan with a leading `\b`: track whether the previous character is a
word character and only try the matcher at boundaries. -/
def scanPostId : Bool → List Char → Option String
  | _, [] => none
  | prevWord, cs@(c :: rest) =>
    if !prevWord then
      match matchPostIdAt cs with
      | some w => some w
      | none => scanPostId (isWordChar c) rest
    else scanPostId (isWordChar c) rest

/-- `urlMatch?.[1] || idMatch?.[1]` of the POST branch. -/
def extractPostId (question : String) : Option String :=
  match scanFirst matchCommentsIdAt question.toList with
  | some w => some w
  | none => scanPostId false question.toList

/-- Position matcher for `/(\d+)\s+(?:posts?|results?|items?)/i`:
maximal digit run as the capture, whitespace, then one of the nouns
(the optional plural `s` does not constrain the match). -/
def matchLimitAt (cs : List Char) : Option String :=
  let pd := cs.span Char.isDigit
  if pd.1.isEmpty then none else
  wsPlusThen pd.2 fun r =>
    let nounOk :=
      (ciStrip "post".toList r).isSome || (ciStrip "result".toList r).isSome ||
        (ciStrip "item".toList r).isSome
    if nounOk then some (String.mk pd.1) else none

/-- Digit-string value (the `parseInt(d, 10)` of a pure digit capture). -/
def parseDigits (s : String) : Nat :=
  s.toList.foldl (fun acc c => 10 * acc + digitVal c) 0

/-- `StructuredQuery` of the reddit domain, the object `parseQuestion`
returns.  `type` is always assigned (defaulting to `hot`). -/
structure RedditQuery where
  type : String
  subreddit : Option String
  postId : Option String
  keyword : Option String
  limit : Nat
  originalQuestion : String
deriving Repr, DecidableEq

/-- The query-type if-chain of `parseQuestion`, a first-match keyword
scan over the lowercased question (`lowerQ` in the source, inlined here)
yielding the intent together with the side-extracted search keyword and
post id: a triple `(type, keyword, postId)`. -/
def classify (question : String) : String × Option String × Option String :=
  if jsIncludes (jsToLower question) "hot" ||
      jsIncludes (jsToLower question) "trending" ||
      jsIncludes (jsToLower question) "popular" then
    (QT_HOT, none, none)
  else if jsIncludes (jsToLower question) "new" ||
      jsIncludes (jsToLower question) "latest" ||
      jsIncludes (jsToLower question) "recent" then
    (QT_NEW, none, none)
  else if jsIncludes (jsToLower question) "top" ||
      jsIncludes (jsToLower question) "best" then
    (QT_TOP, none, none)
  else if jsIncludes (jsToLower question) "search" ||
      jsIncludes (jsToLower question) "find" ||
      jsIncludes (jsToLower question) "looking for" then
    (QT_SEARCH,
     (scanFirst matchSearchKwAt question.toList).map jsTrim, none)
  else if jsIncludes (jsToLower question) "post" && hasAlnumRun6 question then
    (QT_POST, none, extractPostId question)
  else (QT_HOT, none, none)

/-- The reddit `parseQuestion`: subreddit extraction, first-match intent
classification, side extraction of the search keyword / post id, and
the result limit. -/
def parseQuestion (question : String) : RedditQuery :=
  let subreddit := extractSubreddit question
  let tkp := classify question
  let limit :=
    match scanFirst matchLimitAt question.toList with
    | some d => min (parseDigits d) 100
    | none => 10
  { type := tkp.1, subreddit := subreddit, postId := tkp.2.2,
    keyword := tkp.2.1, limit := limit, originalQuestion := question }

/-! ### Reddit adapters and the oracle -/

/-- One post as normalized by `fetchSubreddit` / `searchSubreddit` (the
fields the oracle later reads for its engagement metrics). -/
structure RedditPost where
  score : Int
  numComments : Int
  upvoteRatio : Option ℚ
deriving Repr, DecidableEq

/-- Success payload of a reddit adapter call.  `posts` is present for
subreddit listings and searches, absent for single-post fetches. -/
structure RedditPayload where
  posts : Option (List RedditPost) := none
deriving Repr, DecidableEq

/-- Outcome of an awaited reddit adapter call: `{ error, source }` or a
success payload.  (`askOracle` tests `if (data.error)`, a truthiness
test, so an empty error string falls through to the success branch —
modelled faithfully below.) -/
inductive FetchOutcome where
  | err (error : String) : FetchOutcome
  | ok (payload : RedditPayload) : FetchOutcome
deriving Repr, DecidableEq

/-- The `error` field read by `if (data.error)`. -/
def FetchOutcome.errorField : FetchOutcome → Option String
  | .err e => some e
  | .ok _ => none

/-- The external world of the reddit oracle: what each awaited adapter
call would return, keyed by its arguments. -/
structure RedditEnv where
  fetchSubreddit : String → String → Nat → FetchOutcome
  fetchPost : String → String → FetchOutcome
  searchSubreddit : String → String → Nat → FetchOutcome

/-- `VerificationResult` of the reddit oracle.  The `data` field carries
the adapter outcome verbatim; the engagement-metrics decoration the code
attaches onto `data` (floating-point averages for display) is not
modelled — no control flow and no claim reads it. -/
structure RedditResult where
  success : Bool
  confidence : ℚ
  error : Option String := none
  message : Option String := none
  suggestion : Option String := none
  safetyTriggered : Bool := false
  data : Option FetchOutcome := none
  subreddit : Option String := none
  queryType : Option String := none
  query : Option RedditQuery := none
  parsed : Option RedditQuery := none
  sources : List String := []
  timestamp : String
deriving Repr, DecidableEq

/-- `logQuery` of the reddit oracle. -/
def logQuery (clock : Clock) (result : RedditResult) (stats : Stats) : Stats :=
  let s :=
    if stats.lastReset ≠ clock.dateString then
      { stats with todayQueries := 0, hourlyData := List.replicate 24 0,
                   lastReset := clock.dateString }
    else stats
  let s :=
    { s with totalQueries := s.totalQueries + 1,
             todayQueries := s.todayQueries + 1,
             hourlyData := bumpAt s.hourlyData clock.hour }
  let s :=
    if result.success then { s with successCount := s.successCount + 1 }
    else { s with errorCount := s.errorCount + 1 }
  { s with recentQueries :=
      ({ timestamp := clock.iso, success := result.success,
         subreddit := result.subreddit,
         error := result.error } :: s.recentQueries).take 50 }

/-- The tail of `askOracle` after the switch: the fetched `data` and the
current `confidence` value, through the `if (data.error)` check into the
final failed or successful result, which is logged.  The adapter call
that produced `data` is the one adapter invocation of the run. -/
def finishQuery (clock : Clock) (parsed : RedditQuery) (stats : Stats)
    (data : FetchOutcome) (confidence : ℚ) : RedditResult × Stats × Nat :=
  if jsTruthyOpt data.errorField then
    let result : RedditResult :=
      { success := false, confidence := 0, error := data.errorField,
        subreddit := some (parsed.subreddit.getD ""), query := some parsed,
        timestamp := clock.iso }
    (result, logQuery clock result stats, 1)
  else
    let result : RedditResult :=
      { success := true, confidence := confidence, data := some data,
        subreddit := some (parsed.subreddit.getD ""),
        queryType := some parsed.type, query := some parsed,
        sources := ["reddit"], timestamp := clock.iso }
    (result, logQuery clock result stats, 1)

/-- The reddit `askOracle` with its effects made explicit: result, stats
state afterwards, and the number of source-adapter invocations. -/
def askOracle (env : RedditEnv) (clock : Clock) (question : String)
    (stats : Stats) : RedditResult × Stats × Nat :=
  match checkSafetyLimits stats with
  | .stopped reason msg =>
    ({ success := false, confidence := 0, error := some reason,
       message := some msg, safetyTriggered := true, timestamp := clock.iso },
     stats, 0)
  | .safe =>
    let parsed := parseQuestion question
    if !jsTruthyOpt parsed.subreddit then
      let result : RedditResult :=
        { success := false, confidence := 0,
          error := some "could_not_parse_subreddit",
          suggestion := some
            "Please include a subreddit name (e.g., r/wallstreetbets) in your question",
          parsed := some parsed, timestamp := clock.iso }
      (result, logQuery clock result stats, 0)
    else
      let sub := parsed.subreddit.getD ""
      if parsed.type = QT_POST then
        if !jsTruthyOpt parsed.postId then
          let result : RedditResult :=
            { success := false, confidence := 0,
              error := some "could_not_parse_post_id",
              suggestion := some "Please include a post ID or Reddit URL",
              parsed := some parsed, timestamp := clock.iso }
          (result, logQuery clock result stats, 0)
        else
          finishQuery clock parsed stats (env.fetchPost sub (parsed.postId.getD "")) 0.85
      else if parsed.type = QT_SEARCH then
        if !jsTruthyOpt parsed.keyword then
          let result : RedditResult :=
            { success := false, confidence := 0,
              error := some "could_not_parse_search_keyword",
              suggestion := some "Please include a search term",
              parsed := some parsed, timestamp := clock.iso }
          (result, logQuery clock result stats, 0)
        else
          finishQuery clock parsed stats
            (env.searchSubreddit sub (parsed.keyword.getD "") parsed.limit) 0.80
      else
        finishQuery clock parsed stats
          (env.fetchSubreddit sub parsed.type parsed.limit) 0.85

end Reddit

/-- `axios.get('https://www.reddit.com/r/.../{sort}.json?...', { headers, timeout: 10000 })`
in `fetchSubreddit`, preceded by `await enforceRateLimit()`. -/
def redditFetchSubredditCall : OutboundCall :=
  { timeoutMs := some 10000, userAgent := some Reddit.USER_AGENT,
    pacedByRateLimit := true }

/-- The outbound call of `fetchPost`, preceded by
`await enforceRateLimit()`. -/
def redditFetchPostCall : OutboundCall :=
  { timeoutMs := some 10000, userAgent := some Reddit.USER_AGENT,
    pacedByRateLimit := true }

/-- The outbound call of `searchSubreddit`, preceded by
`await enforceRateLimit()`. -/
def redditSearchSubredditCall : OutboundCall :=
  { timeoutMs := some 10000, userAgent := some Reddit.USER_AGENT,
    pacedByRateLimit := true }

/-! ## The payment-gated HTTP handler (`handleOracleRequest` in `server.mjs`)

The handler is generic over the oracle (`ρ` is its result type).  Each
awaited external interaction — body parsing, the facilitator's
`verifyPermissions` and `settlePermissions`, and the oracle call — is an
explicit input.  The returned trace also counts how often the oracle
(and hence the source adapter, which is only reachable through
`oracle.askOracle`) and the settlement call were invoked. -/

namespace Server

/-- Result of `await parseBody(req)` and the subsequent
`body.question` access. -/
inductive BodyOutcome where
  /-- `parseBody` rejected (invalid JSON). -/
  | malformed : BodyOutcome
  /-- A parsed JSON object; `question` is its `question` field
  (`none` = absent). -/
  | parsed (question : Option String) : BodyOutcome
deriving Repr, DecidableEq

/-- Result of `await payments.facilitator.verifyPermissions(...)`. -/
inductive VerifyOutcome where
  | throws (message : String) : VerifyOutcome
  | returns (isValid : Bool) : VerifyOutcome
deriving Repr, DecidableEq

/-- Result of `await payments.facilitator.settlePermissions(...)`. -/
inductive SettleOutcome where
  | throws (message : String) : SettleOutcome
  | returns (txHash : Option String) : SettleOutcome
deriving Repr, DecidableEq

/-- Result of `await oracle.askOracle(body.question)`. -/
inductive OracleOutcome (ρ : Type) where
  | throws (message : String) : OracleOutcome ρ
  | returns (result : ρ) : OracleOutcome ρ
deriving Repr, DecidableEq

/-- The `payment` record attached to the oracle result before
responding. -/
structure Payment where
  creditsUsed : Nat
  txHash : Option String := none
  error : Option String := none
  message : Option String := none
  timestamp : Option String := none
deriving Repr, DecidableEq

/-- The JSON response the handler sends. -/
inductive Response (ρ : Type) where
  /-- `sendJSON(res, status, { error, message, ... })`;
  `purchaseUrl` is present on the payment-guidance responses. -/
  | errorJson (status : Nat) (error : String) (purchaseUrl : Option String) :
      Response ρ
  /-- `sendJSON(res, 200, oracleResult)` with the attached `payment`. -/
  | okJson (result : ρ) (payment : Payment) : Response ρ
deriving Repr, DecidableEq

/-- HTTP status of a response (`okJson` is always sent with 200). -/
def Response.status : Response ρ → Nat
  | .errorJson s _ _ => s
  | .okJson _ _ => 200

/-- What one run of the handler did. -/
structure HandlerTrace (ρ : Type) where
  response : Response ρ
  oracleCalls : Nat
  settleCalls : Nat
deriving Repr, DecidableEq

/-- The relevant inputs of one incoming request. -/
structure Request where
  /-- `req.headers['payment-signature']`. -/
  paymentSignature : Option String
  /-- `req.headers['authorization']`. -/
  authorization : Option String
  body : BodyOutcome
deriving Repr, DecidableEq

/-- Replace the first occurrence of `pat` in `s` (JS
`String.prototype.replace` with a string pattern). -/
def replaceFirst (s pat repl : String) : String :=
  go s.toList
where
  go : List Char → String
    | [] => if pat = "" then repl else ""
    | cs@(c :: rest) =>
      if charsStartWith pat.toList cs then
        repl ++ String.mk (cs.drop pat.toList.length)
      else String.mk [c] ++ go rest

/-- `req.headers['payment-signature'] || req.headers['authorization']?.replace('Bearer ', '')`. -/
def x402Token (req : Request) : Option String :=
  match req.paymentSignature with
  | some s => if s ≠ "" then some s else
      req.authorization.map fun a => replaceFirst a "Bearer " ""
  | none => req.authorization.map fun a => replaceFirst a "Bearer " ""

/-- `https://nevermined.app/agents/{agentId}` purchase guidance. -/
def purchaseUrl (agentId : String) : String :=
  "https://nevermined.app/agents/" ++ agentId

/-- `handleOracleRequest` with every await made explicit.  The
meta-evolution logging between the oracle call and settlement is wrapped
in its own try/catch in the source and cannot change the control flow,
so it is not modelled. -/
def handleOracleRequest (req : Request) (verify : VerifyOutcome)
    (oracleOut : OracleOutcome ρ) (settle : SettleOutcome)
    (agentId : String) (nowIso : String) : HandlerTrace ρ :=
  if !jsTruthyOpt (x402Token req) then
    { response := .errorJson 402 "payment_required" (some (purchaseUrl agentId)),
      oracleCalls := 0, settleCalls := 0 }
  else
    match req.body with
    | .malformed =>
      { response := .errorJson 400 "invalid_json" none,
        oracleCalls := 0, settleCalls := 0 }
    | .parsed question =>
      if !jsTruthyOpt question then
        { response := .errorJson 400 "missing_question" none,
          oracleCalls := 0, settleCalls := 0 }
      else
        match verify with
        | .throws _ =>
          { response := .errorJson 401 "verification_failed"
              (some (purchaseUrl agentId)),
            oracleCalls := 0, settleCalls := 0 }
        | .returns isValid =>
          if !isValid then
            { response := .errorJson 401 "insufficient_credits"
                (some (purchaseUrl agentId)),
              oracleCalls := 0, settleCalls := 0 }
          else
            match oracleOut with
            | .throws _ =>
              { response := .errorJson 500 "oracle_error" none,
                oracleCalls := 1, settleCalls := 0 }
            | .returns result =>
              match settle with
              | .returns txHash =>
                { response := .okJson result
                    { creditsUsed := 1, txHash := txHash,
                      timestamp := some nowIso },
                  oracleCalls := 1, settleCalls := 1 }
              | .throws msg =>
                { response := .okJson result
                    { creditsUsed := 0, error := some "settlement_failed",
                      message := some msg },
                  oracleCalls := 1, settleCalls := 1 }

end Server

/-! ## Shared concrete fixtures for witnesses and counterexamples -/

/-- A fixed clock: some calendar date, 14:00 hours. -/
def clockEx : Clock :=
  { dateString := "Sun Feb 01 2026", hour := 14, iso := "2026-02-01T14:00:00.000Z" }

/-- A fixed date environment (today 2026-02-03, an environment whose
non-ISO date parsing always fails). -/
def dateEnvEx : DateEnv :=
  { todayISO := "2026-02-03", yesterdayISO := "2026-02-02",
    parseOther := fun _ => none }

/-- A failed reddit log entry. -/
def redditFailEntry : Reddit.LogEntry :=
  { timestamp := "t", success := false, subreddit := some "wallstreetbets",
    error := some "rate_limited" }

/-- A reddit stats state whose five most recent outcomes are failures
(breaker tripped), well inside the daily quota. -/
def redditTrippedStats : Reddit.Stats :=
  { totalQueries := 20, todayQueries := 5, successCount := 3, errorCount := 17,
    hourlyData := List.replicate 24 0,
    recentQueries := List.replicate 5 redditFailEntry,
    lastReset := "Sun Feb 01 2026" }

/-- A reddit environment whose adapters always answer successfully with
an empty listing. -/
def redditEnvOk : Reddit.RedditEnv :=
  { fetchSubreddit := fun _ _ _ => .ok { posts := some [] }
    fetchPost := fun _ _ => .ok {}
    searchSubreddit := fun _ _ _ => .ok { posts := some [] } }

/-- A sports environment whose provider always reports the team as not
found. -/
def sportsEnvFail : Sports.SportsEnv :=
  { querySportsDB := fun _ _ => .fail "team_not_found" }

/-- A failed sports log entry. -/
def sportsFailEntry : Sports.LogEntry :=
  { timestamp := "t", query := none, verified := false, confidence := 0,
    winner := none, error := some "team_not_found" }

/-- A sports stats state whose five most recent outcomes are failures
(breaker tripped), well inside the daily quota. -/
def sportsTrippedStats : Sports.Stats :=
  { totalQueries := 20, todayQueries := 5, successCount := 3, errorCount := 17,
    confidenceSum := 2, hourlyData := List.replicate 24 0,
    recentQueries := List.replicate 5 sportsFailEntry,
    lastReset := "Sun Feb 01 2026" }

/-! ## Helper lemmas -/

lemma filter_length_eq_iff (p : α → Bool) (l : List α) :
    (l.filter p).length = l.length ↔ ∀ a ∈ l, p a := by
  induction l with
  | nil => simp
  | cons a l ih =>
    simp only [List.filter_cons]
    by_cases h : p a
    · simp [h, ih]
    · have hle := List.length_filter_le p l
      simp only [h]
      constructor
      · intro hlen
        simp at hlen
        omega
      · intro hall
        have : p a = true := hall a (by simp)
        simp [h] at this

lemma getD_replicate {α : Type} (n i : Nat) (a d : α) (h : i < n) :
    (List.replicate n a).getD i d = a := by
  induction n generalizing i with
  | zero => omega
  | succ n ih =>
    cases i with
    | zero => simp [List.replicate]
    | succ i => simpa [List.replicate] using ih i (by omega)

/-! ## The claims -/

/-- C9: the two worked examples of the spec.  The sports parser on
"Who won the Lakers game on 2026-01-19?" extracts the single entity
"Lakers" (normalized by the alias table to "Los Angeles Lakers") and the
ISO date 2026-01-19, for any runtime date environment; the reddit parser
on "What's hot on r/wallstreetbets?" extracts subreddit
"wallstreetbets" and intent "hot". -/
theorem c9_worked_examples :
    (∀ env : DateEnv,
      (Sports.parseQuestion env "Who won the Lakers game on 2026-01-19?").team
          = some "Lakers"
      ∧ (Sports.parseQuestion env "Who won the Lakers game on 2026-01-19?").date
          = "2026-01-19")
    ∧ Sports.normalizeTeamName "Lakers" = "Los Angeles Lakers"
    ∧ (Reddit.parseQuestion "What's hot on r/wallstreetbets?").subreddit
        = some "wallstreetbets"
    ∧ (Reddit.parseQuestion "What's hot on r/wallstreetbets?").type = "hot" := by
  refine ⟨fun _ => ⟨?_, ?_⟩, ?_, ?_, ?_⟩ <;> rfl

/-- C9 witness: the sports half of the worked examples instantiated at
the concrete date environment `dateEnvEx`. -/
theorem c9_worked_examples_witness :
    (Sports.parseQuestion dateEnvEx "Who won the Lakers game on 2026-01-19?").team
        = some "Lakers"
    ∧ (Sports.parseQuestion dateEnvEx "Who won the Lakers game on 2026-01-19?").date
        = "2026-01-19" :=
  ⟨(c9_worked_examples.1 dateEnvEx).1, (c9_worked_examples.1 dateEnvEx).2⟩

/-- C7 counterexample: the claim says *every* adapter applies a ~10 s
request timeout, but both outbound calls of the sports adapter
`querySportsDB` pass no timeout (no axios config object at all). -/
theorem c7_counterexample :
    sportsTeamSearchCall.timeoutMs ≠ some 10000
    ∧ sportsTeamSearchCall.timeoutMs = none
    ∧ sportsEventsLastCall.timeoutMs = none := by
  decide

/-- C7 (amended): the reddit adapter applies a fixed 10000 ms timeout to
each of its three outbound calls, while the sports adapter
`querySportsDB` applies none to either of its two calls. -/
theorem c7_timeouts :
    redditFetchSubredditCall.timeoutMs = some 10000
    ∧ redditFetchPostCall.timeoutMs = some 10000
    ∧ redditSearchSubredditCall.timeoutMs = some 10000
    ∧ sportsTeamSearchCall.timeoutMs = none
    ∧ sportsEventsLastCall.timeoutMs = none := by
  decide

/-- C8 counterexample: the claim says every domain's outbound calls are
paced by the Governor's minimum inter-call interval, but neither
outbound call of the sports adapter is preceded by any rate limiting. -/
theorem c8_counterexample :
    sportsTeamSearchCall.pacedByRateLimit = false
    ∧ sportsEventsLastCall.pacedByRateLimit = false := by
  decide

/-- C8 (amended): the reddit adapter precedes each outbound call by
`enforceRateLimit`, which delays (never rejects): whenever the elapsed
time since the previous call is below the 2000 ms interval it sleeps
exactly the difference, so the paced call proceeds no earlier than
`lastRequestTime + 2000`, and the imposed delay is itself bounded by the
interval.  The sports adapter performs no pacing. -/
theorem c8_pacing :
    redditFetchSubredditCall.pacedByRateLimit = true
    ∧ redditFetchPostCall.pacedByRateLimit = true
    ∧ redditSearchSubredditCall.pacedByRateLimit = true
    ∧ (∀ now lastRequestTime : Nat, lastRequestTime ≤ now →
        lastRequestTime + Reddit.requestDelayMs
          ≤ now + Reddit.enforceRateLimitWait now lastRequestTime)
    ∧ (∀ now lastRequestTime : Nat,
        Reddit.enforceRateLimitWait now lastRequestTime ≤ Reddit.requestDelayMs)
    ∧ sportsTeamSearchCall.pacedByRateLimit = false
    ∧ sportsEventsLastCall.pacedByRateLimit = false := by
  refine ⟨rfl, rfl, rfl, ?_, ?_, rfl, rfl⟩ <;>
    · intro now last
      simp only [Reddit.enforceRateLimitWait, Reddit.requestDelayMs]
      split <;> omega

/-- C8 witness: the pacing bound applied at a concrete clock reading
(last call at 4000 ms, now 5000 ms: the call may proceed only from
6000 ms on). -/
theorem c8_pacing_witness :
    (4000 : Nat) ≤ 5000
    ∧ 4000 + Reddit.requestDelayMs ≤ 5000 + Reddit.enforceRateLimitWait 5000 4000 :=
  ⟨by decide, c8_pacing.2.2.2.1 5000 4000 (by decide)⟩

/-- C6 counterexample: the claim says a date the sports parser cannot
resolve is left null, but on "hello" (no date phrase matches: the
extraction comes back `none`) the returned query's `date` field is the
current calendar date, not null — the code runs
`date || new Date().toISOString().split('T')[0]`. -/
theorem c6_counterexample :
    Sports.extractDate dateEnvEx "hello" = none
    ∧ (Sports.parseQuestion dateEnvEx "hello").date = "2026-02-03" := by
  exact ⟨rfl, rfl⟩

/-- C6 (amended): both parsers are total functions of the question text
(they never fail), and every *nullable* field they cannot resolve is
left null — sports `team`/`opponent` are the first two extracted
entities and absent entities leave them null (in particular an opponent
is never present without a team), reddit `subreddit` is exactly the
extraction result and `postId`/`keyword` are only ever set in the
`post`/`search` intents — but the sports `date` field is *not* nullable:
when no date phrase resolves it is defaulted to the current date. -/
theorem c6_parse_nullability :
    ∀ (env : DateEnv) (q : String),
      ((Sports.parseQuestion env q).team = (Sports.extractTeams q).head?
      ∧ (Sports.parseQuestion env q).opponent = (Sports.extractTeams q)[1]?
      ∧ ((Sports.parseQuestion env q).opponent.isSome →
          (Sports.parseQuestion env q).team.isSome)
      ∧ (Sports.extractDate env q = none →
          (Sports.parseQuestion env q).date = env.todayISO))
      ∧ ((Reddit.parseQuestion q).subreddit = Reddit.extractSubreddit q
      ∧ ((Reddit.parseQuestion q).postId ≠ none →
          (Reddit.parseQuestion q).type = Reddit.QT_POST)
      ∧ ((Reddit.parseQuestion q).keyword ≠ none →
          (Reddit.parseQuestion q).type = Reddit.QT_SEARCH)) := by
  intro env q
  refine ⟨⟨rfl, rfl, ?_, ?_⟩, rfl, ?_, ?_⟩
  · show ((Sports.extractTeams q)[1]?).isSome → ((Sports.extractTeams q).head?).isSome
    cases Sports.extractTeams q with
    | nil => simp
    | cons a l => simp
  · intro h
    show jsOrStr (Sports.extractDate env q) env.todayISO = env.todayISO
    rw [h]
    rfl
  · show (Reddit.classify q).2.2 ≠ none → (Reddit.classify q).1 = Reddit.QT_POST
    unfold Reddit.classify
    repeat' split
    all_goals simp
  · show (Reddit.classify q).2.1 ≠ none → (Reddit.classify q).1 = Reddit.QT_SEARCH
    unfold Reddit.classify
    repeat' split
    all_goals simp

/-- C6 witness: the nullability facts applied at the concrete question
"search r/pics for cats" (keyword present forces the `search` intent;
the date hypothesis is discharged on "hello"). -/
theorem c6_parse_nullability_witness :
    ((Reddit.parseQuestion "search r/pics for cats").keyword ≠ none
      ∧ (Reddit.parseQuestion "search r/pics for cats").type = Reddit.QT_SEARCH)
    ∧ (Sports.extractDate dateEnvEx "hello" = none
      ∧ (Sports.parseQuestion dateEnvEx "hello").date = dateEnvEx.todayISO) :=
  ⟨⟨by decide, (c6_parse_nullability dateEnvEx "search r/pics for cats").2.2.2
      (by decide)⟩,
   ⟨by decide, (c6_parse_nullability dateEnvEx "hello").1.2.2.2 (by decide)⟩⟩

/-- C5: both `logQuery` implementations reset `todayQueries` and the
24-bucket histogram exactly when the stored `lastReset` differs from the
current date string (and never otherwise, whatever the counters hold),
and the histogram increment lands on the bucket indexed by the current
hour-of-day (in `[0, 23]`, as `getHours()` guarantees). -/
theorem c5_daily_reset :
    ∀ (clock : Clock), clock.hour < 24 →
      (∀ (r : Reddit.RedditResult) (s : Reddit.Stats),
        s.hourlyData.length = 24 →
        (s.lastReset = clock.dateString →
          (Reddit.logQuery clock r s).todayQueries = s.todayQueries + 1
          ∧ (Reddit.logQuery clock r s).hourlyData
              = s.hourlyData.set clock.hour (s.hourlyData.getD clock.hour 0 + 1)
          ∧ (Reddit.logQuery clock r s).lastReset = s.lastReset)
        ∧ (s.lastReset ≠ clock.dateString →
          (Reddit.logQuery clock r s).todayQueries = 1
          ∧ (Reddit.logQuery clock r s).hourlyData
              = (List.replicate 24 0).set clock.hour 1
          ∧ (Reddit.logQuery clock r s).lastReset = clock.dateString)
        ∧ (Reddit.logQuery clock r s).hourlyData.length = 24)
      ∧ (∀ (r : Sports.SportsResult) (s : Sports.Stats),
        s.hourlyData.length = 24 →
        (s.lastReset = clock.dateString →
          (Sports.logQuery clock r s).todayQueries = s.todayQueries + 1
          ∧ (Sports.logQuery clock r s).hourlyData
              = s.hourlyData.set clock.hour (s.hourlyData.getD clock.hour 0 + 1)
          ∧ (Sports.logQuery clock r s).lastReset = s.lastReset)
        ∧ (s.lastReset ≠ clock.dateString →
          (Sports.logQuery clock r s).todayQueries = 1
          ∧ (Sports.logQuery clock r s).hourlyData
              = (List.replicate 24 0).set clock.hour 1
          ∧ (Sports.logQuery clock r s).lastReset = clock.dateString)
        ∧ (Sports.logQuery clock r s).hourlyData.length = 24) := by
  intro clock hhour
  constructor
  · intro r s hlen
    by_cases hday : s.lastReset = clock.dateString <;>
      cases hsucc : r.success <;>
        simp [Reddit.logQuery, hday, hsucc, bumpAt, List.getElem?_replicate,
          hhour, hlen] <;>
        (interval_cases clock.hour <;> rfl)
  · intro r s hlen
    by_cases hday : s.lastReset = clock.dateString <;>
      cases hsucc : r.verified <;>
        simp [Sports.logQuery, hday, hsucc, bumpAt, List.getElem?_replicate,
          hhour, hlen] <;>
        (interval_cases clock.hour <;> rfl)

/-- C5 witness: logging a (failed) result into the zero state at
14:00 on the same calendar day bumps `todayQueries` to 1 and bucket 14
to 1. -/
theorem c5_daily_reset_witness :
    clockEx.hour < 24
    ∧ (Reddit.initStats "Sun Feb 01 2026").hourlyData.length = 24
    ∧ (Reddit.initStats "Sun Feb 01 2026").lastReset = clockEx.dateString
    ∧ (Reddit.logQuery clockEx
        { success := false, confidence := 0, timestamp := clockEx.iso }
        (Reddit.initStats "Sun Feb 01 2026")).todayQueries
      = (Reddit.initStats "Sun Feb 01 2026").todayQueries + 1 :=
  ⟨by decide, by decide, by decide,
   (((c5_daily_reset clockEx (by decide)).1
      { success := false, confidence := 0, timestamp := clockEx.iso }
      (Reddit.initStats "Sun Feb 01 2026") (by decide)).1 (by decide)).1⟩

/-- A fixed parsed sports query. -/
def sportsQueryEx : Sports.SportsQuery :=
  { team := some "Los Angeles Lakers", opponent := none, date := "2026-01-19",
    originalQuestion := "Who won the Lakers game on 2026-01-19?" }

lemma verify_confidence_cases (clock : Clock) (q : Sports.SportsQuery)
    (db : Sports.SportsDBOut) :
    ((Sports.verifyResult clock q db).verified = false
      ∧ (Sports.verifyResult clock q db).confidence = 0)
    ∨ ((Sports.verifyResult clock q db).verified = true
      ∧ ((Sports.verifyResult clock q db).confidence = 0.75
        ∨ (Sports.verifyResult clock q db).confidence = 0.85)) := by
  cases db with
  | fail e => exact Or.inl ⟨rfl, rfl⟩
  | ok p =>
    refine Or.inr ⟨rfl, ?_⟩
    unfold Sports.verifyResult
    dsimp only
    repeat' split
    all_goals first
      | exact Or.inl rfl
      | exact Or.inr rfl

lemma floor_preserves_cases (r0 : Sports.SportsResult)
    (h : (r0.verified = false ∧ r0.confidence = 0)
      ∨ (r0.verified = true ∧ (r0.confidence = 0.75 ∨ r0.confidence = 0.85))) :
    (((if r0.verified ∧ 0 < r0.confidence then
        { r0 with confidence := Sports.applyConfidenceFloor r0.confidence }
      else r0).verified = false
      ∧ (if r0.verified ∧ 0 < r0.confidence then
          { r0 with confidence := Sports.applyConfidenceFloor r0.confidence }
        else r0).confidence = 0)
    ∨ ((if r0.verified ∧ 0 < r0.confidence then
          { r0 with confidence := Sports.applyConfidenceFloor r0.confidence }
        else r0).verified = true
      ∧ ((if r0.verified ∧ 0 < r0.confidence then
            { r0 with confidence := Sports.applyConfidenceFloor r0.confidence }
          else r0).confidence = 0.75
        ∨ (if r0.verified ∧ 0 < r0.confidence then
            { r0 with confidence := Sports.applyConfidenceFloor r0.confidence }
          else r0).confidence = 0.85))) := by
  rcases h with ⟨hv, hcf⟩ | ⟨hv, hcf | hcf⟩
  · rw [if_neg (by simp [hv])]
    exact Or.inl ⟨hv, hcf⟩
  · rw [if_pos ⟨hv, by rw [hcf]; norm_num⟩]
    refine Or.inr ⟨hv, Or.inl ?_⟩
    show Sports.applyConfidenceFloor r0.confidence = 0.75
    rw [hcf]
    norm_num [Sports.applyConfidenceFloor, Sports.minConfidenceFloor]
  · rw [if_pos ⟨hv, by rw [hcf]; norm_num⟩]
    refine Or.inr ⟨hv, Or.inr ?_⟩
    show Sports.applyConfidenceFloor r0.confidence = 0.85
    rw [hcf]
    norm_num [Sports.applyConfidenceFloor, Sports.minConfidenceFloor]

lemma ask_sports_confidence_cases (env : Sports.SportsEnv) (dateEnv : DateEnv)
    (clock : Clock) (question : String) (stats : Sports.Stats) :
    (((Sports.askOracle env dateEnv clock question stats).1.verified = false
      ∧ (Sports.askOracle env dateEnv clock question stats).1.confidence = 0)
    ∨ ((Sports.askOracle env dateEnv clock question stats).1.verified = true
      ∧ ((Sports.askOracle env dateEnv clock question stats).1.confidence = 0.75
        ∨ (Sports.askOracle env dateEnv clock question stats).1.confidence = 0.85))) := by
  unfold Sports.askOracle
  cases hc : Sports.checkSafetyLimits stats with
  | stopped reason msg => exact Or.inl ⟨rfl, rfl⟩
  | safe =>
    dsimp only
    split
    · exact Or.inl ⟨rfl, rfl⟩
    · exact floor_preserves_cases _ (verify_confidence_cases _ _ _)

lemma finish_confidence_cases (clock : Clock) (parsed : Reddit.RedditQuery)
    (stats : Reddit.Stats) (data : Reddit.FetchOutcome) (c : ℚ) :
    (((Reddit.finishQuery clock parsed stats data c).1.success = false
      ∧ (Reddit.finishQuery clock parsed stats data c).1.confidence = 0)
    ∨ ((Reddit.finishQuery clock parsed stats data c).1.success = true
      ∧ (Reddit.finishQuery clock parsed stats data c).1.confidence = c)) := by
  unfold Reddit.finishQuery
  split
  · exact Or.inl ⟨rfl, rfl⟩
  · exact Or.inr ⟨rfl, rfl⟩

lemma ask_reddit_confidence_cases (env : Reddit.RedditEnv) (clock : Clock)
    (question : String) (stats : Reddit.Stats) :
    (((Reddit.askOracle env clock question stats).1.success = false
      ∧ (Reddit.askOracle env clock question stats).1.confidence = 0)
    ∨ ((Reddit.askOracle env clock question stats).1.success = true
      ∧ ((Reddit.askOracle env clock question stats).1.confidence = 0.85
        ∨ (Reddit.askOracle env clock question stats).1.confidence = 0.80))) := by
  unfold Reddit.askOracle
  cases hc : Reddit.checkSafetyLimits stats with
  | stopped reason msg => exact Or.inl ⟨rfl, rfl⟩
  | safe =>
    dsimp only
    split
    · exact Or.inl ⟨rfl, rfl⟩
    · split
      · split
        · exact Or.inl ⟨rfl, rfl⟩
        · rcases finish_confidence_cases _ _ _ _ _ with ⟨hs, hcf⟩ | ⟨hs, hcf⟩
          · exact Or.inl ⟨hs, hcf⟩
          · exact Or.inr ⟨hs, Or.inl hcf⟩
      · split
        · split
          · exact Or.inl ⟨rfl, rfl⟩
          · rcases finish_confidence_cases _ _ _ _ _ with ⟨hs, hcf⟩ | ⟨hs, hcf⟩
            · exact Or.inl ⟨hs, hcf⟩
            · exact Or.inr ⟨hs, Or.inr hcf⟩
        · rcases finish_confidence_cases _ _ _ _ _ with ⟨hs, hcf⟩ | ⟨hs, hcf⟩
          · exact Or.inl ⟨hs, hcf⟩
          · exact Or.inr ⟨hs, Or.inl hcf⟩

/-- C1: every `VerificationResult` the oracle entry points produce
satisfies the confidence invariant — a failed result has confidence
exactly 0, a successful result has confidence in `[0.5, 1]` (sports:
0.75 or 0.85 after the floor; reddit: 0.85 or 0.80).  Stated for the
sports `verifyResult`, the sports `askOracle` and the reddit
`askOracle`, over every environment, clock, stats state and question. -/
theorem c1_confidence_invariant :
    (∀ (clock : Clock) (q : Sports.SportsQuery) (db : Sports.SportsDBOut),
      ((Sports.verifyResult clock q db).verified = false →
        (Sports.verifyResult clock q db).confidence = 0)
      ∧ ((Sports.verifyResult clock q db).verified = true →
        1/2 ≤ (Sports.verifyResult clock q db).confidence
        ∧ (Sports.verifyResult clock q db).confidence ≤ 1))
    ∧ (∀ (env : Sports.SportsEnv) (dateEnv : DateEnv) (clock : Clock)
        (question : String) (stats : Sports.Stats),
      ((Sports.askOracle env dateEnv clock question stats).1.verified = false →
        (Sports.askOracle env dateEnv clock question stats).1.confidence = 0)
      ∧ ((Sports.askOracle env dateEnv clock question stats).1.verified = true →
        1/2 ≤ (Sports.askOracle env dateEnv clock question stats).1.confidence
        ∧ (Sports.askOracle env dateEnv clock question stats).1.confidence ≤ 1))
    ∧ (∀ (env : Reddit.RedditEnv) (clock : Clock) (question : String)
        (stats : Reddit.Stats),
      ((Reddit.askOracle env clock question stats).1.success = false →
        (Reddit.askOracle env clock question stats).1.confidence = 0)
      ∧ ((Reddit.askOracle env clock question stats).1.success = true →
        1/2 ≤ (Reddit.askOracle env clock question stats).1.confidence
        ∧ (Reddit.askOracle env clock question stats).1.confidence ≤ 1)) := by
  refine ⟨?_, ?_, ?_⟩
  · intro clock q db
    rcases verify_confidence_cases clock q db with ⟨hv, hcf⟩ | ⟨hv, hcf | hcf⟩
    · exact ⟨fun _ => hcf, fun h => absurd h (by simp [hv])⟩
    · exact ⟨fun h => absurd h (by simp [hv]),
             fun _ => by rw [hcf]; norm_num⟩
    · exact ⟨fun h => absurd h (by simp [hv]),
             fun _ => by rw [hcf]; norm_num⟩
  · intro env dateEnv clock question stats
    rcases ask_sports_confidence_cases env dateEnv clock question stats with
      ⟨hv, hcf⟩ | ⟨hv, hcf | hcf⟩
    · exact ⟨fun _ => hcf, fun h => absurd h (by simp [hv])⟩
    · exact ⟨fun h => absurd h (by simp [hv]),
             fun _ => by rw [hcf]; norm_num⟩
    · exact ⟨fun h => absurd h (by simp [hv]),
             fun _ => by rw [hcf]; norm_num⟩
  · intro env clock question stats
    rcases ask_reddit_confidence_cases env clock question stats with
      ⟨hv, hcf⟩ | ⟨hv, hcf | hcf⟩
    · exact ⟨fun _ => hcf, fun h => absurd h (by simp [hv])⟩
    · exact ⟨fun h => absurd h (by simp [hv]),
             fun _ => by rw [hcf]; norm_num⟩
    · exact ⟨fun h => absurd h (by simp [hv]),
             fun _ => by rw [hcf]; norm_num⟩

/-- C1 witness: a concrete failed sports verification has confidence 0,
and a concrete successful reddit query ("What's hot on
r/wallstreetbets?" against an always-answering provider, from the zero
stats state) has confidence within `[0.5, 1]`. -/
theorem c1_confidence_invariant_witness :
    ((Sports.verifyResult clockEx sportsQueryEx (.fail "team_not_found")).verified = false
      ∧ (Sports.verifyResult clockEx sportsQueryEx (.fail "team_not_found")).confidence = 0)
    ∧ ((Reddit.askOracle redditEnvOk clockEx "What's hot on r/wallstreetbets?"
          (Reddit.initStats "Sun Feb 01 2026")).1.success = true
      ∧ 1/2 ≤ (Reddit.askOracle redditEnvOk clockEx "What's hot on r/wallstreetbets?"
          (Reddit.initStats "Sun Feb 01 2026")).1.confidence
      ∧ (Reddit.askOracle redditEnvOk clockEx "What's hot on r/wallstreetbets?"
          (Reddit.initStats "Sun Feb 01 2026")).1.confidence ≤ 1) :=
  ⟨⟨rfl, (c1_confidence_invariant.1 clockEx sportsQueryEx (.fail "team_not_found")).1 rfl⟩,
   ⟨rfl, (c1_confidence_invariant.2.2 redditEnvOk clockEx
      "What's hot on r/wallstreetbets?" (Reddit.initStats "Sun Feb 01 2026")).2 rfl⟩⟩

lemma ask_reddit_stopped (env : Reddit.RedditEnv) (clock : Clock)
    (question : String) (stats : Reddit.Stats) (reason msg : String)
    (h : Reddit.checkSafetyLimits stats = .stopped reason msg) :
    Reddit.askOracle env clock question stats
      = ({ success := false, confidence := 0, error := some reason,
           message := some msg, safetyTriggered := true,
           timestamp := clock.iso }, stats, 0) := by
  unfold Reddit.askOracle
  rw [h]

lemma ask_sports_stopped (env : Sports.SportsEnv) (dateEnv : DateEnv)
    (clock : Clock) (question : String) (stats : Sports.Stats)
    (reason msg : String)
    (h : Sports.checkSafetyLimits stats = .stopped reason msg) :
    Sports.askOracle env dateEnv clock question stats
      = ({ verified := false, confidence := 0, error := some reason,
           message := some msg, safetyTriggered := true,
           timestamp := clock.iso }, stats, 0) := by
  unfold Sports.askOracle
  rw [h]

lemma reddit_breaker_iff (s : Reddit.Stats) :
    Reddit.checkSafetyLimits s
      = .stopped "circuit_breaker_tripped"
          "5 consecutive errors detected. Operations paused."
    ↔ 5 ≤ s.recentQueries.length
      ∧ ∀ e ∈ s.recentQueries.take 5, e.success = false := by
  have hlen : (s.recentQueries.take 5).length = min 5 s.recentQueries.length :=
    List.length_take 5 s.recentQueries
  unfold Reddit.checkSafetyLimits Reddit.maxConsecutiveErrors
    Reddit.maxQueriesPerDay
  dsimp only
  constructor
  · intro h
    by_cases hc : 5 ≤ (s.recentQueries.take 5).length
        ∧ ((s.recentQueries.take 5).filter fun q => !q.success).length = 5
    · obtain ⟨h1, h2⟩ := hc
      have hall := (filter_length_eq_iff (fun q => !q.success)
        (s.recentQueries.take 5)).mp (by omega)
      refine ⟨by omega, fun e he => ?_⟩
      simpa using hall e he
    · rw [if_neg hc] at h
      split at h <;> simp at h
  · rintro ⟨h1, h2⟩
    have hall : ∀ e ∈ s.recentQueries.take 5, (fun q => !q.success) e = true := by
      intro e he
      simp [h2 e he]
    have hfl := (filter_length_eq_iff (fun q => !q.success)
      (s.recentQueries.take 5)).mpr hall
    rw [if_pos ⟨by omega, by omega⟩]

lemma sports_breaker_iff (s : Sports.Stats) :
    Sports.checkSafetyLimits s
      = .stopped "circuit_breaker_tripped"
          "5 consecutive errors detected. Operations paused."
    ↔ 5 ≤ s.recentQueries.length
      ∧ ∀ e ∈ s.recentQueries.take 5, e.verified = false := by
  have hlen : (s.recentQueries.take 5).length = min 5 s.recentQueries.length :=
    List.length_take 5 s.recentQueries
  unfold Sports.checkSafetyLimits Sports.maxConsecutiveErrors
    Sports.maxQueriesPerDay
  dsimp only
  constructor
  · intro h
    by_cases hc : 5 ≤ (s.recentQueries.take 5).length
        ∧ ((s.recentQueries.take 5).filter fun q => !q.verified).length = 5
    · obtain ⟨h1, h2⟩ := hc
      have hall := (filter_length_eq_iff (fun q => !q.verified)
        (s.recentQueries.take 5)).mp (by omega)
      refine ⟨by omega, fun e he => ?_⟩
      simpa using hall e he
    · rw [if_neg hc] at h
      split at h <;> simp at h
  · rintro ⟨h1, h2⟩
    have hall : ∀ e ∈ s.recentQueries.take 5, (fun q => !q.verified) e = true := by
      intro e he
      simp [h2 e he]
    have hfl := (filter_length_eq_iff (fun q => !q.verified)
      (s.recentQueries.take 5)).mpr hall
    rw [if_pos ⟨by omega, by omega⟩]

lemma reddit_log_success_recent (clock : Clock) (res : Reddit.RedditResult)
    (s : Reddit.Stats) :
    (Reddit.logQuery clock res s).recentQueries
      = { timestamp := clock.iso, success := res.success,
          subreddit := res.subreddit, error := res.error }
          :: s.recentQueries.take 49 := by
  by_cases hday : s.lastReset = clock.dateString <;>
    cases hs : res.success <;>
      simp [Reddit.logQuery, hday, hs]

lemma reddit_log_success_clears_breaker (clock : Clock)
    (res : Reddit.RedditResult) (s : Reddit.Stats)
    (hsucc : res.success = true) :
    (∀ m, Reddit.checkSafetyLimits (Reddit.logQuery clock res s)
      ≠ .stopped "circuit_breaker_tripped" m)
    ∧ ((Reddit.logQuery clock res s).todayQueries < 500 →
        Reddit.checkSafetyLimits (Reddit.logQuery clock res s) = .safe) := by
  have hcond : ¬(Reddit.maxConsecutiveErrors
      ≤ ((Reddit.logQuery clock res s).recentQueries.take
          Reddit.maxConsecutiveErrors).length
    ∧ (((Reddit.logQuery clock res s).recentQueries.take
          Reddit.maxConsecutiveErrors).filter fun q => !q.success).length
        = Reddit.maxConsecutiveErrors) := by
    rw [reddit_log_success_recent clock res s]
    rintro ⟨-, hflen⟩
    rw [show Reddit.maxConsecutiveErrors = 5 from rfl] at hflen
    rw [List.take_succ_cons, List.filter_cons] at hflen
    simp only [hsucc] at hflen
    have hle := List.length_filter_le (fun q => !q.success)
      ((s.recentQueries.take 49).take 4)
    have hle2 := List.length_take_le 4 (s.recentQueries.take 49)
    simp at hflen
    omega
  constructor
  · intro m
    unfold Reddit.checkSafetyLimits
    rw [if_neg hcond]
    split <;> simp
  · intro htoday
    unfold Reddit.checkSafetyLimits
    rw [if_neg hcond, if_neg (by unfold Reddit.maxQueriesPerDay; omega)]

lemma sports_log_success_recent (clock : Clock) (res : Sports.SportsResult)
    (s : Sports.Stats) :
    (Sports.logQuery clock res s).recentQueries
      = { timestamp := clock.iso, query := res.query,
          verified := res.verified, confidence := res.confidence,
          winner := res.result.map fun g => g.winner, error := res.error }
          :: s.recentQueries.take 49 := by
  by_cases hday : s.lastReset = clock.dateString <;>
    cases hs : res.verified <;>
      simp [Sports.logQuery, hday, hs]

lemma sports_log_success_clears_breaker (clock : Clock)
    (res : Sports.SportsResult) (s : Sports.Stats)
    (hsucc : res.verified = true) :
    (∀ m, Sports.checkSafetyLimits (Sports.logQuery clock res s)
      ≠ .stopped "circuit_breaker_tripped" m)
    ∧ ((Sports.logQuery clock res s).todayQueries < 1000 →
        Sports.checkSafetyLimits (Sports.logQuery clock res s) = .safe) := by
  have hcond : ¬(Sports.maxConsecutiveErrors
      ≤ ((Sports.logQuery clock res s).recentQueries.take
          Sports.maxConsecutiveErrors).length
    ∧ (((Sports.logQuery clock res s).recentQueries.take
          Sports.maxConsecutiveErrors).filter fun q => !q.verified).length
        = Sports.maxConsecutiveErrors) := by
    rw [sports_log_success_recent clock res s]
    rintro ⟨-, hflen⟩
    rw [show Sports.maxConsecutiveErrors = 5 from rfl] at hflen
    rw [List.take_succ_cons, List.filter_cons] at hflen
    simp only [hsucc] at hflen
    have hle := List.length_filter_le (fun q => !q.verified)
      ((s.recentQueries.take 49).take 4)
    have hle2 := List.length_take_le 4 (s.recentQueries.take 49)
    simp at hflen
    omega
  constructor
  · intro m
    unfold Sports.checkSafetyLimits
    rw [if_neg hcond]
    split <;> simp
  · intro htoday
    unfold Sports.checkSafetyLimits
    rw [if_neg hcond, if_neg (by unfold Sports.maxQueriesPerDay; omega)]

/-- C2 counterexample: "after one subsequent success is recorded at the
head of the log, the next pre-check passes" fails when recording the
success exhausts the daily quota.  With the breaker tripped (five
failures at the head) and 499 queries already counted today, logging one
success makes `todayQueries` 500, and the next `checkSafetyLimits`
rejects with `daily_limit_reached` instead of passing. -/
theorem c2_counterexample :
    Reddit.checkSafetyLimits
        { redditTrippedStats with todayQueries := 499 }
      = .stopped "circuit_breaker_tripped"
          "5 consecutive errors detected. Operations paused."
    ∧ Reddit.checkSafetyLimits
        (Reddit.logQuery clockEx
          { success := true, confidence := 0.85, timestamp := clockEx.iso }
          { redditTrippedStats with todayQueries := 499 })
      = .stopped "daily_limit_reached" "Daily query limit (500) reached." := by
  exact ⟨rfl, rfl⟩

/-- C2 (amended): in both domains the pre-check reports the breaker
tripped iff the recent-query log holds at least 5 entries whose 5 most
recent outcomes are all failures; in both domains, when the pre-check
rejects, `askOracle` returns the safety error without invoking the
source adapter and without touching the stats; and in both domains,
after one subsequent success is recorded at the head of the log the
next pre-check no longer reports the breaker — it passes provided the
daily quota (500 reddit, 1000 sports) is not exhausted by that point
(recording the success also counts it against the daily quota, so the
pre-check may still reject with `daily_limit_reached`). -/
theorem c2_breaker :
    (∀ s : Reddit.Stats,
      Reddit.checkSafetyLimits s
        = .stopped "circuit_breaker_tripped"
            "5 consecutive errors detected. Operations paused."
      ↔ 5 ≤ s.recentQueries.length
        ∧ ∀ e ∈ s.recentQueries.take 5, e.success = false)
    ∧ (∀ s : Sports.Stats,
      Sports.checkSafetyLimits s
        = .stopped "circuit_breaker_tripped"
            "5 consecutive errors detected. Operations paused."
      ↔ 5 ≤ s.recentQueries.length
        ∧ ∀ e ∈ s.recentQueries.take 5, e.verified = false)
    ∧ (∀ (env : Reddit.RedditEnv) (clock : Clock) (question : String)
        (stats : Reddit.Stats) (reason msg : String),
      Reddit.checkSafetyLimits stats = .stopped reason msg →
        (Reddit.askOracle env clock question stats).1.error = some reason
        ∧ (Reddit.askOracle env clock question stats).1.safetyTriggered = true
        ∧ (Reddit.askOracle env clock question stats).2.2 = 0
        ∧ (Reddit.askOracle env clock question stats).2.1 = stats)
    ∧ (∀ (env : Sports.SportsEnv) (dateEnv : DateEnv) (clock : Clock)
        (question : String) (stats : Sports.Stats) (reason msg : String),
      Sports.checkSafetyLimits stats = .stopped reason msg →
        (Sports.askOracle env dateEnv clock question stats).1.error = some reason
        ∧ (Sports.askOracle env dateEnv clock question stats).1.safetyTriggered
            = true
        ∧ (Sports.askOracle env dateEnv clock question stats).2.2 = 0
        ∧ (Sports.askOracle env dateEnv clock question stats).2.1 = stats)
    ∧ (∀ (clock : Clock) (res : Reddit.RedditResult) (s : Reddit.Stats),
      res.success = true →
        (∀ m, Reddit.checkSafetyLimits (Reddit.logQuery clock res s)
          ≠ .stopped "circuit_breaker_tripped" m)
        ∧ ((Reddit.logQuery clock res s).todayQueries < 500 →
            Reddit.checkSafetyLimits (Reddit.logQuery clock res s) = .safe))
    ∧ (∀ (clock : Clock) (res : Sports.SportsResult) (s : Sports.Stats),
      res.verified = true →
        (∀ m, Sports.checkSafetyLimits (Sports.logQuery clock res s)
          ≠ .stopped "circuit_breaker_tripped" m)
        ∧ ((Sports.logQuery clock res s).todayQueries < 1000 →
            Sports.checkSafetyLimits (Sports.logQuery clock res s) = .safe)) := by
  refine ⟨reddit_breaker_iff, sports_breaker_iff, ?_, ?_,
    reddit_log_success_clears_breaker, sports_log_success_clears_breaker⟩
  · intro env clock question stats reason msg h
    rw [ask_reddit_stopped env clock question stats reason msg h]
    exact ⟨rfl, rfl, rfl, rfl⟩
  · intro env dateEnv clock question stats reason msg h
    rw [ask_sports_stopped env dateEnv clock question stats reason msg h]
    exact ⟨rfl, rfl, rfl, rfl⟩

/-- C2 witness: the amended facts at concrete tripped states in both
domains — the pre-check rejects on `redditTrippedStats` and
`sportsTrippedStats` (five logged failures each), `askOracle` rejects
without any adapter call, and after one logged success (daily quota far
from exhausted) the pre-check is `safe` again. -/
theorem c2_breaker_witness :
    (5 ≤ redditTrippedStats.recentQueries.length
      ∧ ∀ e ∈ redditTrippedStats.recentQueries.take 5, e.success = false)
    ∧ Reddit.checkSafetyLimits redditTrippedStats
        = .stopped "circuit_breaker_tripped"
            "5 consecutive errors detected. Operations paused."
    ∧ (Reddit.askOracle redditEnvOk clockEx "What's hot on r/wallstreetbets?"
        redditTrippedStats).2.2 = 0
    ∧ Reddit.checkSafetyLimits
        (Reddit.logQuery clockEx
          { success := true, confidence := 0.85, timestamp := clockEx.iso }
          redditTrippedStats)
      = .safe
    ∧ (Sports.askOracle sportsEnvFail dateEnvEx clockEx
        "Who won the Lakers game on 2026-01-19?" sportsTrippedStats).2.2 = 0
    ∧ Sports.checkSafetyLimits
        (Sports.logQuery clockEx
          { verified := true, confidence := 0.75, timestamp := clockEx.iso }
          sportsTrippedStats)
      = .safe :=
  ⟨⟨by decide, by decide⟩,
   (c2_breaker.1 redditTrippedStats).mpr ⟨by decide, by decide⟩,
   ((c2_breaker.2.2.1 redditEnvOk clockEx "What's hot on r/wallstreetbets?"
      redditTrippedStats "circuit_breaker_tripped"
      "5 consecutive errors detected. Operations paused." (by decide)).2.2.1),
   ((c2_breaker.2.2.2.2.1 clockEx
      { success := true, confidence := 0.85, timestamp := clockEx.iso }
      redditTrippedStats rfl).2 (by decide)),
   ((c2_breaker.2.2.2.1 sportsEnvFail dateEnvEx clockEx
      "Who won the Lakers game on 2026-01-19?" sportsTrippedStats
      "circuit_breaker_tripped"
      "5 consecutive errors detected. Operations paused." (by decide)).2.2.1),
   ((c2_breaker.2.2.2.2.2 clockEx
      { verified := true, confidence := 0.75, timestamp := clockEx.iso }
      sportsTrippedStats rfl).2 (by decide))⟩

/-! ## Sequences of `askOracle` calls (for the breaker-persistence
claim) -/

/-- The stats state after a sequence of reddit `askOracle` calls (each
with its own environment, clock and question), threading the stats
through. -/
def runRedditOracle (inputs : List (Reddit.RedditEnv × Clock × String))
    (s : Reddit.Stats) : Reddit.Stats :=
  inputs.foldl (fun st i => (Reddit.askOracle i.1 i.2.1 i.2.2 st).2.1) s

/-- The stats state after a sequence of sports `askOracle` calls. -/
def runSportsOracle
    (inputs : List (Sports.SportsEnv × DateEnv × Clock × String))
    (s : Sports.Stats) : Sports.Stats :=
  inputs.foldl (fun st i => (Sports.askOracle i.1 i.2.1 i.2.2.1 i.2.2.2 st).2.1) s

/-- The reddit circuit breaker is tripped in `s`. -/
def redditTripped (s : Reddit.Stats) : Prop :=
  Reddit.checkSafetyLimits s
    = .stopped "circuit_breaker_tripped"
        "5 consecutive errors detected. Operations paused."

/-- C10: whenever the pre-check rejects (breaker or quota), `askOracle`
returns the safety error while recording nothing — the stats state is
returned unchanged and the adapter is not invoked (both domains); and
consequently a tripped reddit breaker persists under any sequence of
`askOracle` calls alone: the stats never change and the breaker stays
tripped. -/
theorem c10_safety_rejection_records_nothing :
    (∀ (env : Reddit.RedditEnv) (clock : Clock) (question : String)
        (stats : Reddit.Stats) (reason msg : String),
      Reddit.checkSafetyLimits stats = .stopped reason msg →
        (Reddit.askOracle env clock question stats).2.1 = stats
        ∧ (Reddit.askOracle env clock question stats).1.safetyTriggered = true
        ∧ (Reddit.askOracle env clock question stats).1.error = some reason
        ∧ (Reddit.askOracle env clock question stats).2.2 = 0)
    ∧ (∀ (env : Sports.SportsEnv) (dateEnv : DateEnv) (clock : Clock)
        (question : String) (stats : Sports.Stats) (reason msg : String),
      Sports.checkSafetyLimits stats = .stopped reason msg →
        (Sports.askOracle env dateEnv clock question stats).2.1 = stats
        ∧ (Sports.askOracle env dateEnv clock question stats).1.safetyTriggered = true
        ∧ (Sports.askOracle env dateEnv clock question stats).1.error = some reason
        ∧ (Sports.askOracle env dateEnv clock question stats).2.2 = 0)
    ∧ (∀ (inputs : List (Reddit.RedditEnv × Clock × String))
        (s : Reddit.Stats),
      redditTripped s →
        runRedditOracle inputs s = s ∧ redditTripped (runRedditOracle inputs s)) := by
  have hred : ∀ (env : Reddit.RedditEnv) (clock : Clock) (question : String)
      (stats : Reddit.Stats) (reason msg : String),
      Reddit.checkSafetyLimits stats = .stopped reason msg →
        (Reddit.askOracle env clock question stats).2.1 = stats
        ∧ (Reddit.askOracle env clock question stats).1.safetyTriggered = true
        ∧ (Reddit.askOracle env clock question stats).1.error = some reason
        ∧ (Reddit.askOracle env clock question stats).2.2 = 0 := by
    intro env clock question stats reason msg h
    rw [ask_reddit_stopped env clock question stats reason msg h]
    exact ⟨rfl, rfl, rfl, rfl⟩
  refine ⟨hred, ?_, ?_⟩
  · intro env dateEnv clock question stats reason msg h
    rw [ask_sports_stopped env dateEnv clock question stats reason msg h]
    exact ⟨rfl, rfl, rfl, rfl⟩
  · intro inputs
    induction inputs with
    | nil => exact fun s hs => ⟨rfl, hs⟩
    | cons i rest ih =>
      intro s hs
      have hstep : (Reddit.askOracle i.1 i.2.1 i.2.2 s).2.1 = s :=
        (hred i.1 i.2.1 i.2.2 s _ _ hs).1
      have hrun : runRedditOracle (i :: rest) s
          = runRedditOracle rest ((Reddit.askOracle i.1 i.2.1 i.2.2 s).2.1) := rfl
      rw [hrun, hstep]
      exact ih s hs

/-- C10 witness: from the concrete tripped state, a three-call
`askOracle`-only trace leaves the stats bit-for-bit unchanged and the
breaker still tripped. -/
theorem c10_safety_rejection_records_nothing_witness :
    redditTripped redditTrippedStats
    ∧ runRedditOracle
        [(redditEnvOk, clockEx, "What's hot on r/wallstreetbets?"),
         (redditEnvOk, clockEx, "What's new on r/technology?"),
         (redditEnvOk, clockEx, "search r/pics for cats")]
        redditTrippedStats = redditTrippedStats
    ∧ redditTripped
        (runRedditOracle
          [(redditEnvOk, clockEx, "What's hot on r/wallstreetbets?"),
           (redditEnvOk, clockEx, "What's new on r/technology?"),
           (redditEnvOk, clockEx, "search r/pics for cats")]
          redditTrippedStats) :=
  ⟨rfl,
   (c10_safety_rejection_records_nothing.2.2
      [(redditEnvOk, clockEx, "What's hot on r/wallstreetbets?"),
       (redditEnvOk, clockEx, "What's new on r/technology?"),
       (redditEnvOk, clockEx, "search r/pics for cats")]
      redditTrippedStats rfl).1,
   (c10_safety_rejection_records_nothing.2.2
      [(redditEnvOk, clockEx, "What's hot on r/wallstreetbets?"),
       (redditEnvOk, clockEx, "What's new on r/technology?"),
       (redditEnvOk, clockEx, "search r/pics for cats")]
      redditTrippedStats rfl).2⟩

/-- C3 counterexample: the claim promises every invalid-credential
request a 401/402 answer, but a request carrying a (to-be-rejected)
credential together with a malformed JSON body is answered 400
(`invalid_json`) — body parsing happens before verification — so it is
neither 401 nor 402 (the adapter is still never called). -/
theorem c3_counterexample :
    (Server.handleOracleRequest (ρ := Reddit.RedditResult)
      { paymentSignature := some "x402-token", authorization := none,
        body := .malformed }
      (.returns false) (.throws "never-called") (.throws "never-called")
      "agent-1" "2026-02-01T14:00:00.000Z").response.status = 400
    ∧ (Server.handleOracleRequest (ρ := Reddit.RedditResult)
      { paymentSignature := some "x402-token", authorization := none,
        body := .malformed }
      (.returns false) (.throws "never-called") (.throws "never-called")
      "agent-1" "2026-02-01T14:00:00.000Z").response.status ≠ 401
    ∧ (Server.handleOracleRequest (ρ := Reddit.RedditResult)
      { paymentSignature := some "x402-token", authorization := none,
        body := .malformed }
      (.returns false) (.throws "never-called") (.throws "never-called")
      "agent-1" "2026-02-01T14:00:00.000Z").response.status ≠ 402
    ∧ (Server.handleOracleRequest (ρ := Reddit.RedditResult)
      { paymentSignature := some "x402-token", authorization := none,
        body := .malformed }
      (.returns false) (.throws "never-called") (.throws "never-called")
      "agent-1" "2026-02-01T14:00:00.000Z").oracleCalls = 0 := by
  refine ⟨rfl, by decide, by decide, rfl⟩

/-- C3 (amended): payment verification must succeed before the oracle
(and hence the source adapter, reachable only through it) is invoked —
an oracle call implies the facilitator returned valid.  A request with a
missing credential is answered 402 with purchase guidance before
anything else; a request whose body is valid JSON with a non-empty
question but whose credential is invalid/insufficient (401
`insufficient_credits`) or whose verification call fails (401
`verification_failed`) is answered with purchase guidance; none of these
trigger an oracle call.  (A bad-credential request with a malformed or
question-less body is rejected 400 before verification, still with no
oracle call.) -/
theorem c3_payment_gate :
    ∀ (ρ : Type) (req : Server.Request) (verify : Server.VerifyOutcome)
      (oracleOut : Server.OracleOutcome ρ) (settle : Server.SettleOutcome)
      (agentId nowIso : String),
      (jsTruthyOpt (Server.x402Token req) = false →
        (Server.handleOracleRequest req verify oracleOut settle agentId
          nowIso).response
          = .errorJson 402 "payment_required"
              (some (Server.purchaseUrl agentId))
        ∧ (Server.handleOracleRequest req verify oracleOut settle agentId
            nowIso).oracleCalls = 0)
      ∧ (∀ q, jsTruthyOpt (Server.x402Token req) = true →
          req.body = .parsed q → jsTruthyOpt q = true →
          verify = .returns false →
          (Server.handleOracleRequest req verify oracleOut settle agentId
            nowIso).response
            = .errorJson 401 "insufficient_credits"
                (some (Server.purchaseUrl agentId))
          ∧ (Server.handleOracleRequest req verify oracleOut settle agentId
              nowIso).oracleCalls = 0)
      ∧ (∀ q msg, jsTruthyOpt (Server.x402Token req) = true →
          req.body = .parsed q → jsTruthyOpt q = true →
          verify = .throws msg →
          (Server.handleOracleRequest req verify oracleOut settle agentId
            nowIso).response
            = .errorJson 401 "verification_failed"
                (some (Server.purchaseUrl agentId))
          ∧ (Server.handleOracleRequest req verify oracleOut settle agentId
              nowIso).oracleCalls = 0)
      ∧ (1 ≤ (Server.handleOracleRequest req verify oracleOut settle agentId
            nowIso).oracleCalls →
          verify = .returns true) := by
  intro ρ req verify oracleOut settle agentId nowIso
  refine ⟨?_, ?_, ?_, ?_⟩
  · intro htok
    constructor <;> simp [Server.handleOracleRequest, htok]
  · intro q htok hbody hq hverify
    constructor <;>
      simp [Server.handleOracleRequest, htok, hbody, hq, hverify]
  · intro q msg htok hbody hq hverify
    constructor <;>
      simp [Server.handleOracleRequest, htok, hbody, hq, hverify]
  · intro hcall
    by_cases htok : jsTruthyOpt (Server.x402Token req) = false
    · simp [Server.handleOracleRequest, htok] at hcall
    · rw [Bool.not_eq_false] at htok
      cases hbody : req.body with
      | malformed =>
        simp [Server.handleOracleRequest, htok, hbody] at hcall
      | parsed q =>
        by_cases hq : jsTruthyOpt q = false
        · simp [Server.handleOracleRequest, htok, hbody, hq] at hcall
        · rw [Bool.not_eq_false] at hq
          cases verify with
          | throws m =>
            simp [Server.handleOracleRequest, htok, hbody, hq] at hcall
          | returns isValid =>
            cases isValid with
            | false =>
              simp [Server.handleOracleRequest, htok, hbody, hq] at hcall
            | true => rfl

/-- C3 witness: the 402 and 401 classifications at concrete requests
(missing credential; present credential with a well-formed body but an
invalid/insufficient credential). -/
theorem c3_payment_gate_witness :
    (jsTruthyOpt (Server.x402Token
        { paymentSignature := none, authorization := none,
          body := .parsed (some "Who won the Lakers game on 2026-01-19?") }) = false
      ∧ (Server.handleOracleRequest (ρ := Reddit.RedditResult)
          { paymentSignature := none, authorization := none,
            body := .parsed (some "Who won the Lakers game on 2026-01-19?") }
          (.returns true) (.throws "never-called") (.throws "never-called")
          "agent-1" "now").response.status = 402)
    ∧ ((Server.handleOracleRequest (ρ := Reddit.RedditResult)
          { paymentSignature := some "x402-token", authorization := none,
            body := .parsed (some "Who won the Lakers game on 2026-01-19?") }
          (.returns false) (.throws "never-called") (.throws "never-called")
          "agent-1" "now").response
        = .errorJson 401 "insufficient_credits"
            (some (Server.purchaseUrl "agent-1"))
      ∧ (Server.handleOracleRequest (ρ := Reddit.RedditResult)
          { paymentSignature := some "x402-token", authorization := none,
            body := .parsed (some "Who won the Lakers game on 2026-01-19?") }
          (.returns false) (.throws "never-called") (.throws "never-called")
          "agent-1" "now").oracleCalls = 0) :=
  ⟨⟨rfl, by
      rw [((c3_payment_gate Reddit.RedditResult
        { paymentSignature := none, authorization := none,
          body := .parsed (some "Who won the Lakers game on 2026-01-19?") }
        (.returns true) (.throws "never-called") (.throws "never-called")
        "agent-1" "now").1 rfl).1]
      rfl⟩,
   (c3_payment_gate Reddit.RedditResult
      { paymentSignature := some "x402-token", authorization := none,
        body := .parsed (some "Who won the Lakers game on 2026-01-19?") }
      (.returns false) (.throws "never-called") (.throws "never-called")
      "agent-1" "now").2.1
      (some "Who won the Lakers game on 2026-01-19?") rfl rfl (by decide) rfl⟩

/-- C4: once the oracle query has been processed (the oracle returned a
result) and the credential verified, a failing settle call never
discards or alters the computed result: the handler still responds
HTTP 200 with that very result, carrying a `payment` record with
`creditsUsed := 0` and `error := "settlement_failed"`; and on every run
whatsoever settlement is attempted at most once (no retry). -/
theorem c4_settlement_failure_preserved :
    (∀ (ρ : Type) (req : Server.Request) (q : Option String) (r : ρ)
        (msg : String) (agentId nowIso : String),
      jsTruthyOpt (Server.x402Token req) = true →
      req.body = .parsed q → jsTruthyOpt q = true →
      (Server.handleOracleRequest req (.returns true) (.returns r)
          (.throws msg) agentId nowIso).response
        = .okJson r
            { creditsUsed := 0, error := some "settlement_failed",
              message := some msg }
      ∧ (Server.handleOracleRequest req (.returns true) (.returns r)
          (.throws msg) agentId nowIso).response.status = 200
      ∧ (Server.handleOracleRequest req (.returns true) (.returns r)
          (.throws msg) agentId nowIso).settleCalls = 1)
    ∧ (∀ (ρ : Type) (req : Server.Request) (verify : Server.VerifyOutcome)
        (oracleOut : Server.OracleOutcome ρ) (settle : Server.SettleOutcome)
        (agentId nowIso : String),
      (Server.handleOracleRequest req verify oracleOut settle agentId
        nowIso).settleCalls ≤ 1) := by
  constructor
  · intro ρ req q r msg agentId nowIso htok hbody hq
    refine ⟨?_, ?_, ?_⟩ <;>
      simp [Server.handleOracleRequest, htok, hbody, hq, Server.Response.status]
  · intro ρ req verify oracleOut settle agentId nowIso
    unfold Server.handleOracleRequest
    split
    · exact Nat.zero_le 1
    · split
      · exact Nat.zero_le 1
      · split
        · exact Nat.zero_le 1
        · split
          · exact Nat.zero_le 1
          · split
            · exact Nat.zero_le 1
            · split
              · exact Nat.zero_le 1
              · split <;> exact Nat.le_refl 1

/-- C4 witness: a concrete verified request whose settlement throws is
still answered 200 with the oracle result intact and
`payment.error = settlement_failed`. -/
theorem c4_settlement_failure_preserved_witness :
    jsTruthyOpt (Server.x402Token
      { paymentSignature := some "x402-token", authorization := none,
        body := .parsed (some "What's hot on r/wallstreetbets?") }) = true
    ∧ (Server.handleOracleRequest (ρ := Nat)
        { paymentSignature := some "x402-token", authorization := none,
          body := .parsed (some "What's hot on r/wallstreetbets?") }
        (.returns true) (.returns 7) (.throws "facilitator unreachable")
        "agent-1" "now").response
      = .okJson 7
          { creditsUsed := 0, error := some "settlement_failed",
            message := some "facilitator unreachable" } :=
  ⟨rfl,
   ((c4_settlement_failure_preserved.1 Nat
      { paymentSignature := some "x402-token", authorization := none,
        body := .parsed (some "What's hot on r/wallstreetbets?") }
      (some "What's hot on r/wallstreetbets?") 7 "facilitator unreachable"
      "agent-1" "now") rfl rfl (by decide)).1⟩

end SportsOracle
